import Mathlib

/-!
Verification development for the multi-agent orchestration repository
(`src/lambda/...`).  The Python sources are shallowly embedded below:
pure functions become Lean functions, stateful code passes explicit
state records, machine-level failures are `Except`/`Option`, and the
`datetime.now()` / `uuid4()` / hosted-model ambience is passed in
explicitly.  Each embedded definition carries a pointer to the source
file and lines it translates.
-/

namespace MAS

/-! ## LLM client message normalization
Embeds `src/lambda/layers/common/python/llm_client.py`,
`LLMClient._invoke_via_bedrock` lines 74-131: the construction of the
outbound (model-bound) message list from the caller's message list. -/

/-- A chat message dict with `role` and `content` keys. -/
structure Msg where
  role : String
  content : String
deriving Repr, DecidableEq

/-- llm_client.py lines 80-83: concatenate every system message's content,
each followed by a blank-line separator. -/
def systemContentOf (msgs : List Msg) : String :=
  msgs.foldl (fun s m => if m.role = "system" then s ++ m.content ++ "\n\n" else s) ""

/-- llm_client.py lines 80-83: `has_system` flag. -/
def hasSystemMsg (msgs : List Msg) : Bool :=
  msgs.any (fun m => m.role = "system")

/-- llm_client.py lines 86-99: build `valid_messages`.  `i` is the index in
the original list (`enumerate`): system messages are skipped, a user
message gets the system aggregate prepended only when it sits at index 0
of the original list and a system message exists, assistant messages pass
through, and any other role is dropped. -/
def buildValid (hasSys : Bool) (sysContent : String) : Nat → List Msg → List Msg
  | _, [] => []
  | i, m :: rest =>
    if m.role = "system" then
      buildValid hasSys sysContent (i + 1) rest
    else if m.role = "user" then
      (if i = 0 ∧ hasSys then
        { role := "user", content := sysContent ++ "\n\n" ++ m.content }
      else m) :: buildValid hasSys sysContent (i + 1) rest
    else if m.role = "assistant" then
      m :: buildValid hasSys sysContent (i + 1) rest
    else
      buildValid hasSys sysContent (i + 1) rest

/-- llm_client.py lines 106-123: one iteration of the alternation-fixing
loop body at index `i` (the CPython semantics: `valid_messages[i]` and
`len(valid_messages)` are read from the current, possibly grown, list). -/
def fixStep (acc : List Msg) (i : Nat) : List Msg :=
  let cur := acc.getD i { role := "", content := "" }
  let prev := acc.getD (i - 1) { role := "", content := "" }
  if cur.role = prev.role then
    if i = acc.length - 1 ∧ cur.role = "user" then
      acc
    else if cur.role = "user" then
      acc.insertIdx i { role := "assistant", content := "I understand. Please continue." }
    else
      acc.insertIdx i { role := "user", content := "Please continue." }
  else
    acc

/-- llm_client.py lines 106-123: `for i in range(1, len(valid_messages))`
with in-place inserts.  CPython evaluates `range(1, len(valid_messages))`
once, before the first iteration, so the iteration indices are fixed by
the pre-insertion length even though the list grows. -/
def fixAlternation (l : List Msg) : List Msg :=
  (List.range' 1 (l.length - 1)).foldl fixStep l

/-- llm_client.py lines 74-129: the outbound message list that
`_invoke_via_bedrock` places in the wire request body, or the
`ValueError("No valid messages provided")` of line 103. -/
def outboundMessages (msgs : List Msg) : Except String (List Msg) :=
  let valid := buildValid (hasSystemMsg msgs) (systemContentOf msgs) 0 msgs
  if valid.isEmpty then
    .error "No valid messages provided"
  else
    .ok (fixAlternation valid)

/-- Character-level prefix test (the semantics of a Python `startswith` /
an S3 key-prefix filter): `p` is a prefix of `s`. -/
def strPfx (p s : String) : Bool := decide (p.data <+: s.data)

lemma mem_insertIdx_or {a b : Msg} {n : Nat} {l : List Msg}
    (h : a ∈ l.insertIdx n b) : a = b ∨ a ∈ l := by
  by_cases hn : n ≤ l.length
  · exact (List.mem_insertIdx hn).mp h
  · rw [List.insertIdx_of_length_lt l b n (Nat.lt_of_not_le hn)] at h
    exact Or.inr h

lemma buildValid_no_system {m : Msg} : ∀ {hasSys : Bool} {sc : String} {i : Nat}
    {msgs : List Msg}, m ∈ buildValid hasSys sc i msgs → m.role ≠ "system" := by
  intro hasSys sc i msgs
  induction msgs generalizing i with
  | nil => intro h; simp [buildValid] at h
  | cons x xs ih =>
    intro h
    simp only [buildValid] at h
    by_cases hs : x.role = "system"
    · rw [if_pos hs] at h; exact ih h
    · rw [if_neg hs] at h
      by_cases hu : x.role = "user"
      · rw [if_pos hu] at h
        rcases List.mem_cons.mp h with h' | h'
        · by_cases h0 : i = 0 ∧ hasSys = true
          · rw [if_pos h0] at h'; subst h'; simp
          · rw [if_neg h0] at h'; subst h'; rw [hu]; simp
        · exact ih h'
      · rw [if_neg hu] at h
        by_cases ha : x.role = "assistant"
        · rw [if_pos ha] at h
          rcases List.mem_cons.mp h with h' | h'
          · subst h'; rw [ha]; simp
          · exact ih h'
        · rw [if_neg ha] at h; exact ih h

lemma mem_fixStep {m : Msg} {acc : List Msg} {i : Nat} (h : m ∈ fixStep acc i) :
    m ∈ acc ∨ m.role = "assistant" ∨ m.role = "user" := by
  simp only [fixStep] at h
  split at h
  · split at h
    · exact Or.inl h
    · split at h
      · rcases mem_insertIdx_or h with h' | h'
        · subst h'; right; left; rfl
        · exact Or.inl h'
      · rcases mem_insertIdx_or h with h' | h'
        · subst h'; right; right; rfl
        · exact Or.inl h'
  · exact Or.inl h

lemma mem_fixAlternation {m : Msg} {l : List Msg} (h : m ∈ fixAlternation l) :
    m ∈ l ∨ m.role = "assistant" ∨ m.role = "user" := by
  unfold fixAlternation at h
  generalize hr : List.range' 1 (l.length - 1) = r at h
  clear hr
  induction r generalizing l with
  | nil => exact Or.inl h
  | cons j r ih =>
    simp only [List.foldl_cons] at h
    rcases ih h with h' | h'
    · exact (mem_fixStep h').imp_left id
    · exact Or.inr h'

/-- C1.  System-message folding, as the code actually behaves.
(1) For the input `[system: "X", user: "Y"]` the outbound list is exactly
one `user` message whose content is `"Y"`: the system aggregate is
*discarded*, because the fold condition of llm_client.py line 90 tests the
message's index in the original list (`i == 0`), and a user message that
follows a system message never sits at index 0.
(2) The aggregate is prepended exactly when the input's first message
(original index 0) is user-role and some system message exists, giving
content `aggregate ++ blank line ++ blank line ++ original`.
(3) A user message at any nonzero original index passes through unchanged
(so nothing else ever receives the aggregate).
(4) The outbound list never contains a system-role entry. -/
theorem C1_system_message_folding :
    (outboundMessages [{ role := "system", content := "X" }, { role := "user", content := "Y" }]
        = .ok [{ role := "user", content := "Y" }]) ∧
    (∀ (m : Msg) (rest : List Msg), m.role = "user" → hasSystemMsg (m :: rest) = true →
      buildValid (hasSystemMsg (m :: rest)) (systemContentOf (m :: rest)) 0 (m :: rest) =
        { role := "user",
          content := systemContentOf (m :: rest) ++ "\n\n" ++ m.content } ::
          buildValid (hasSystemMsg (m :: rest)) (systemContentOf (m :: rest)) 1 rest) ∧
    (∀ (hasSys : Bool) (sc : String) (i : Nat) (m : Msg) (rest : List Msg),
      i ≠ 0 → m.role = "user" →
      buildValid hasSys sc i (m :: rest) = m :: buildValid hasSys sc (i + 1) rest) ∧
    (∀ (msgs l : List Msg), outboundMessages msgs = .ok l →
      ∀ m ∈ l, m.role ≠ "system") := by
  refine ⟨by rfl, ?_, ?_, ?_⟩
  · intro m rest hu hs
    have hns : ¬ m.role = "system" := by rw [hu]; decide
    simp only [buildValid, if_neg hns, if_pos hu, hs, and_true]
    simp
  · intro hasSys sc i m rest hi hu
    have hns : ¬ m.role = "system" := by rw [hu]; decide
    have h0 : ¬ (i = 0 ∧ hasSys = true) := fun h => hi h.1
    simp only [buildValid, if_neg hns, if_pos hu, if_neg h0]
  · intro msgs l h m hm
    simp only [outboundMessages] at h
    split at h
    · exact absurd h (by simp)
    · have hl : l = fixAlternation (buildValid (hasSystemMsg msgs) (systemContentOf msgs) 0 msgs) := by
        cases h; rfl
      subst hl
      rcases mem_fixAlternation hm with h' | h' | h'
      · exact buildValid_no_system h'
      · rw [h']; decide
      · rw [h']; decide

/-- C1 witness: the folding rule and pass-through rule of
`C1_system_message_folding` applied at concrete inputs, and the
no-system-entry rule applied to a concrete outbound list. -/
theorem C1_system_message_folding_witness :
    buildValid (hasSystemMsg [{ role := "user", content := "Y" }, { role := "system", content := "X" }])
        (systemContentOf [{ role := "user", content := "Y" }, { role := "system", content := "X" }]) 0
        [{ role := "user", content := "Y" }, { role := "system", content := "X" }] =
      { role := "user", content := "X\n\n" ++ "\n\n" ++ "Y" } ::
        buildValid true "X\n\n" 1 [{ role := "system", content := "X" }] ∧
    buildValid true "X\n\n" 1 [{ role := "user", content := "Y" }] =
      { role := "user", content := "Y" } :: buildValid true "X\n\n" 2 [] ∧
    ∀ m ∈ [({ role := "user", content := "Y" } : Msg)], m.role ≠ "system" := by
  refine ⟨?_, ?_, ?_⟩
  · exact C1_system_message_folding.2.1 { role := "user", content := "Y" }
      [{ role := "system", content := "X" }] rfl rfl
  · exact C1_system_message_folding.2.2.1 true "X\n\n" 1 { role := "user", content := "Y" } []
      (by decide) rfl
  · exact C1_system_message_folding.2.2.2
      [{ role := "system", content := "X" }, { role := "user", content := "Y" }]
      [{ role := "user", content := "Y" }] (by rfl)

/-- C1 counterexample to the claim as stated: on `[system: "X", user: "Y"]`
the single outbound message's content is exactly `"Y"`; it does not begin
with `"X"`. -/
theorem C1_counterexample :
    outboundMessages [{ role := "system", content := "X" }, { role := "user", content := "Y" }]
        = .ok [{ role := "user", content := "Y" }] ∧
    strPfx "X" "Y" = false := by
  exact ⟨by rfl, by rfl⟩

/-! ## Python/JSON value model
A JSON-shaped Python value as held in dicts, S3 object bodies, and
operation inputs/outputs.  Numbers are modeled as rationals (all numeric
literals appearing in the sources are exactly representable; no claim
compares numeric renderings). -/

/-- A Python value of JSON shape. -/
inductive Val where
  | vnull : Val
  | vbool : Bool → Val
  | vnum : Rat → Val
  | vstr : String → Val
  | varr : List Val → Val
  | vobj : List (String × Val) → Val
deriving Repr

open Val

/-- Python truthiness (`if not x`): None, False, 0, empty string/list/dict
are falsy. -/
def Val.truthy : Val → Bool
  | vnull => false
  | vbool b => b
  | vnum q => q != 0
  | vstr s => !s.isEmpty
  | varr xs => !xs.isEmpty
  | vobj fs => !fs.isEmpty

/-- `d[k] = v` on a Python dict held as an insertion-ordered assoc list:
overwrite in place if the key exists, else append. -/
def setKey : List (String × Val) → String → Val → List (String × Val)
  | [], k, v => [(k, v)]
  | (k', v') :: rest, k, v =>
    if k' = k then (k, v) :: rest else (k', v') :: setKey rest k v

/-- `d.get(k)` — `none` when the key is absent. -/
def getKey (fs : List (String × Val)) (k : String) : Option Val :=
  (fs.find? (fun p => p.1 = k)).map (fun p => p.2)

/-- `d.get(k, dflt)`. -/
def getKeyD (fs : List (String × Val)) (k : String) (dflt : Val) : Val :=
  (getKey fs k).getD dflt

/-! ## json.dumps (default arguments: `ensure_ascii=True`,
separators `", "` and `": "`) — the serialized form of a value. -/

/-- JSON string escaping of one character under `ensure_ascii=True`. -/
def escChar (c : Char) : List Char :=
  if c = '"' then ['\\', '"']
  else if c = '\\' then ['\\', '\\']
  else if c = Char.ofNat 10 then ['\\', 'n']
  else if c = Char.ofNat 13 then ['\\', 'r']
  else if c = Char.ofNat 9 then ['\\', 't']
  else if c = Char.ofNat 8 then ['\\', 'b']
  else if c = Char.ofNat 12 then ['\\', 'f']
  else if c.toNat < 32 ∨ 126 < c.toNat then
    ('\\' :: 'u' :: (Nat.toDigits 16 c.toNat).leftpad 4 '0')
  else [c]

/-- JSON escaping of a character list. -/
def escList : List Char → List Char
  | [] => []
  | c :: cs => escChar c ++ escList cs

/-- A JSON string literal: quote, escaped body, quote. -/
def dumpStr (s : String) : String :=
  "\"" ++ String.mk (escList s.data) ++ "\""

/-- Rendering of a JSON number.  (Python renders floats with repr; the
rational carrier is rendered as numerator[/denominator].  No claim
depends on numeric rendering.) -/
def dumpNum (q : Rat) : String :=
  if q.den = 1 then toString q.num else toString q.num ++ "/" ++ toString q.den

mutual
/-- `json.dumps` with CPython's default separators (`", "` and `": "`). -/
def dumps : Val → String
  | vnull => "null"
  | vbool true => "true"
  | vbool false => "false"
  | vnum q => dumpNum q
  | vstr s => dumpStr s
  | varr xs => "[" ++ dumpsArr xs ++ "]"
  | vobj fs => "\x7b" ++ dumpsObj fs ++ "\x7d"

/-- Comma-separated array elements. -/
def dumpsArr : List Val → String
  | [] => ""
  | [x] => dumps x
  | x :: xs => dumps x ++ ", " ++ dumpsArr xs

/-- Comma-separated `"key": value` members. -/
def dumpsObj : List (String × Val) → String
  | [] => ""
  | [(k, v)] => dumpStr k ++ ": " ++ dumps v
  | (k, v) :: fs => dumpStr k ++ ": " ++ dumps v ++ ", " ++ dumpsObj fs
end

/-! ## json.loads — a recursive-descent JSON reader.
`fromJson? cs fuel` consumes one JSON value; the fuel bounds nesting
depth (each recursive call consumes at least one character first, so
`length + 1` fuel suffices). -/

/-- JSON whitespace skip. -/
def skipWs : List Char → List Char
  | c :: cs => if c = ' ' ∨ c = Char.ofNat 9 ∨ c = Char.ofNat 10 ∨ c = Char.ofNat 13
      then skipWs cs else c :: cs
  | [] => []

/-- Hex digit value. -/
def hexVal (c : Char) : Option Nat :=
  if '0' ≤ c ∧ c ≤ '9' then some (c.toNat - 48)
  else if 'a' ≤ c ∧ c ≤ 'f' then some (c.toNat - 87)
  else if 'A' ≤ c ∧ c ≤ 'F' then some (c.toNat - 55)
  else none

/-- Parse the body of a JSON string literal after the opening quote. -/
def parseJStr : Nat → List Char → Option (List Char × List Char)
  | 0, _ => none
  | _ + 1, [] => none
  | fuel + 1, c :: cs =>
    if c = '"' then some ([], cs)
    else if c = '\\' then
      match cs with
      | [] => none
      | e :: cs' =>
        let dec : Option (Char × List Char) :=
          if e = '"' then some ('"', cs')
          else if e = '\\' then some ('\\', cs')
          else if e = '/' then some ('/', cs')
          else if e = 'n' then some (Char.ofNat 10, cs')
          else if e = 'r' then some (Char.ofNat 13, cs')
          else if e = 't' then some (Char.ofNat 9, cs')
          else if e = 'b' then some (Char.ofNat 8, cs')
          else if e = 'f' then some (Char.ofNat 12, cs')
          else if e = 'u' then
            match cs' with
            | h1 :: h2 :: h3 :: h4 :: cs'' =>
              match hexVal h1, hexVal h2, hexVal h3, hexVal h4 with
              | some a, some b, some c3, some d =>
                some (Char.ofNat (((a * 16 + b) * 16 + c3) * 16 + d), cs'')
              | _, _, _, _ => none
            | _ => none
          else none
        match dec with
        | some (ch, rest) =>
          match parseJStr fuel rest with
          | some (body, rest') => some (ch :: body, rest')
          | none => none
        | none => none
    else
      match parseJStr fuel cs with
      | some (body, rest') => some (c :: body, rest')
      | none => none

/-- Parse an unsigned decimal digit run. -/
def takeDigitRun (cs : List Char) : List Char × List Char :=
  (cs.takeWhile Char.isDigit, cs.dropWhile Char.isDigit)

/-- Digits to Nat. -/
def digitsToNat (cs : List Char) : Nat :=
  cs.foldl (fun n c => n * 10 + (c.toNat - 48)) 0

/-- Parse a JSON number starting at `cs` (sign, integer part, optional
fraction, optional exponent), as a rational. -/
def parseJNum (cs : List Char) : Option (Rat × List Char) :=
  let (sign, cs₁) : Int × List Char :=
    match cs with
    | '-' :: rest => (-1, rest)
    | _ => (1, cs)
  let (ip, cs₂) := takeDigitRun cs₁
  if ip.isEmpty then none else
  let (fp, cs₃) : List Char × List Char :=
    match cs₂ with
    | '.' :: rest => takeDigitRun rest
    | _ => ([], cs₂)
  if cs₂ ≠ cs₃ ∧ fp.isEmpty then none else
  let base : Rat := (digitsToNat ip : Rat) + (digitsToNat fp : Rat) / ((10 : Rat) ^ fp.length)
  match cs₃ with
  | e :: rest =>
    if e = 'e' ∨ e = 'E' then
      let (esign, rest₁) : Int × List Char :=
        match rest with
        | '-' :: r => (-1, r)
        | '+' :: r => (1, r)
        | _ => (1, rest)
      let (ed, rest₂) := takeDigitRun rest₁
      if ed.isEmpty then none
      else some ((sign : Rat) * base * (10 : Rat) ^ (esign * (digitsToNat ed : Int)), rest₂)
    else some ((sign : Rat) * base, cs₃)
  | [] => some ((sign : Rat) * base, [])

mutual
/-- Parse one JSON value. -/
def parseJVal : Nat → List Char → Option (Val × List Char)
  | 0, _ => none
  | fuel + 1, cs =>
    match skipWs cs with
    | 'n' :: 'u' :: 'l' :: 'l' :: rest => some (vnull, rest)
    | 't' :: 'r' :: 'u' :: 'e' :: rest => some (vbool true, rest)
    | 'f' :: 'a' :: 'l' :: 's' :: 'e' :: rest => some (vbool false, rest)
    | '"' :: rest =>
      match parseJStr (rest.length + 1) rest with
      | some (body, rest') => some (vstr (String.mk body), rest')
      | none => none
    | '[' :: rest =>
      (match skipWs rest with
      | ']' :: rest' => some (varr [], rest')
      | _ =>
        match parseJArr fuel rest with
        | some (xs, rest') => some (varr xs, rest')
        | none => none)
    | '\x7b' :: rest =>
      (match skipWs rest with
      | '\x7d' :: rest' => some (vobj [], rest')
      | _ =>
        match parseJObj fuel rest with
        | some (fs, rest') => some (vobj fs, rest')
        | none => none)
    | cs' =>
      match parseJNum cs' with
      | some (q, rest) => some (vnum q, rest)
      | none => none

/-- Parse comma-separated array elements, then the closing bracket. -/
def parseJArr : Nat → List Char → Option (List Val × List Char)
  | 0, _ => none
  | fuel + 1, cs =>
    match parseJVal fuel cs with
    | some (v, rest) =>
      (match skipWs rest with
      | ',' :: rest' =>
        (match parseJArr fuel rest' with
        | some (xs, rest'') => some (v :: xs, rest'')
        | none => none)
      | ']' :: rest' => some ([v], rest')
      | _ => none)
    | none => none

/-- Parse comma-separated object members, then the closing brace. -/
def parseJObj : Nat → List Char → Option (List (String × Val) × List Char)
  | 0, _ => none
  | fuel + 1, cs =>
    match skipWs cs with
    | '"' :: rest =>
      (match parseJStr (rest.length + 1) rest with
      | some (key, rest₁) =>
        (match skipWs rest₁ with
        | ':' :: rest₂ =>
          (match parseJVal fuel rest₂ with
          | some (v, rest₃) =>
            (match skipWs rest₃ with
            | ',' :: rest₄ =>
              (match parseJObj fuel rest₄ with
              | some (fs, rest₅) => some ((String.mk key, v) :: fs, rest₅)
              | none => none)
            | '\x7d' :: rest₄ => some ([(String.mk key, v)], rest₄)
            | _ => none)
          | none => none)
        | _ => none)
      | none => none)
    | _ => none
end

/-- `json.loads`: parse one value and require only whitespace after it;
`none` models the `json.JSONDecodeError` raise. -/
def jsonLoads (s : String) : Option Val :=
  match parseJVal (s.length + 1) s.data with
  | some (v, rest) => if (skipWs rest).isEmpty then some v else none
  | none => none

/-! ## Timestamps
`agent_utils.py` derives the artifact year/month with
`datetime.fromisoformat(timestamp.replace('Z', '+00:00'))` and
`strftime('%Y')` / `strftime('%m')`.  `fromisoformat` below models the
stdlib parser on a conservative subset of its domain (four-digit years
≥ 1000, `YYYY-MM-DD[THH:MM[:SS[.fff|.ffffff]]][±HH:MM]`, with calendar
range checks): every string it accepts is accepted by CPython with the
same year/month, and `%Y`/`%m` render as the unpadded year (glibc) and
zero-padded month. -/

/-- The date components of a parsed `datetime` that the key scheme uses. -/
structure Date where
  year : Nat
  month : Nat
  day : Nat
deriving Repr, DecidableEq

/-- Gregorian leap year. -/
def isLeap (y : Nat) : Bool := (y % 4 = 0 ∧ y % 100 ≠ 0) ∨ y % 400 = 0

/-- Days in a month. -/
def daysInMonth (y m : Nat) : Nat :=
  if m = 2 then (if isLeap y then 29 else 28)
  else if m = 4 ∨ m = 6 ∨ m = 9 ∨ m = 11 then 30
  else 31

/-- Take exactly `k` decimal digits. -/
def takeDigits (k : Nat) (cs : List Char) : Option (Nat × List Char) :=
  let pre := cs.take k
  if pre.length = k ∧ pre.all Char.isDigit then some (digitsToNat pre, cs.drop k)
  else none

/-- Validity of a `±HH:MM` UTC-offset tail (empty = no offset). -/
def chkOff : List Char → Bool
  | [] => true
  | c :: rest =>
    (c = '+' ∨ c = '-') &&
    (match takeDigits 2 rest with
     | some (hh, ':' :: rest₂) =>
       (match takeDigits 2 rest₂ with
        | some (mm, rest₃) => hh ≤ 23 && mm ≤ 59 && rest₃.isEmpty
        | none => false)
     | _ => false)

/-- Validity of an optional `.fff`/`.ffffff` fraction followed by an
optional offset. -/
def chkFracOff : List Char → Bool
  | '.' :: rest =>
    let ds := rest.takeWhile Char.isDigit
    (ds.length = 3 ∨ ds.length = 6) && chkOff (rest.drop ds.length)
  | cs => chkOff cs

/-- Validity of the `HH:MM[:SS[.frac]][±HH:MM]` time part. -/
def chkTime (cs : List Char) : Bool :=
  match takeDigits 2 cs with
  | some (hh, ':' :: r₁) =>
    (match takeDigits 2 r₁ with
     | some (mm, r₂) =>
       hh ≤ 23 && mm ≤ 59 &&
       (match r₂ with
        | ':' :: r₃ =>
          (match takeDigits 2 r₃ with
           | some (ss, r₄) => ss ≤ 59 && chkFracOff r₄
           | none => false)
        | cs' => chkOff cs')
     | none => false)
  | _ => false

/-- `datetime.fromisoformat` (restricted domain, see section comment):
the returned value carries the components that `strftime('%Y')` /
`strftime('%m')` read. -/
def fromisoformat (s : String) : Option Date :=
  match takeDigits 4 s.data with
  | some (y, '-' :: r₁) =>
    (match takeDigits 2 r₁ with
     | some (mo, '-' :: r₂) =>
       (match takeDigits 2 r₂ with
        | some (d, r₃) =>
          if 1000 ≤ y ∧ 1 ≤ mo ∧ mo ≤ 12 ∧ 1 ≤ d ∧ d ≤ daysInMonth y mo then
            match r₃ with
            | [] => some ⟨y, mo, d⟩
            | 'T' :: r₄ => if chkTime r₄ then some ⟨y, mo, d⟩ else none
            | _ => none
          else none
        | none => none)
     | _ => none)
  | _ => none

/-- One pass of non-overlapping left-to-right substring replacement
(CPython `str.replace`), over character lists, fuelled by the input
length. -/
def replaceListAux : Nat → List Char → List Char → List Char → List Char
  | 0, _, _, cs => cs
  | fuel + 1, pat, rep, cs =>
    if pat.isPrefixOf cs then rep ++ replaceListAux fuel pat rep (cs.drop pat.length)
    else match cs with
      | [] => []
      | c :: rest => c :: replaceListAux fuel pat rep rest

/-- CPython `str.replace(pat, rep)` for nonempty patterns (the sources
only ever replace `"Z"`). -/
def strReplace (s pat rep : String) : String :=
  if pat.isEmpty then s
  else String.mk (replaceListAux (s.data.length + 1) pat.data rep.data s.data)

/-- `strftime('%m')`: zero-padded month. -/
def pad2 (n : Nat) : String := (if n < 10 then "0" else "") ++ toString n

/-- agent_utils.py lines 133-168, `S3Client._format_path`: resolve the
year/month from the supplied ISO timestamp (falling back to `now` when
the timestamp is absent, empty, or unparsable), clamp the sequence number
to ≥ 1, and format the scalable object key. -/
def formatPath (project_id agent_type artifact_type artifact_id : String)
    (timestamp : Option String) (sequence_number : Int) (now : Date) : String :=
  let dt := match timestamp with
    | none => now
    | some s => if s.isEmpty then now
        else (fromisoformat (strReplace s "Z" "+00:00")).getD now
  let seq := if sequence_number < 1 then 1 else sequence_number
  "projects/" ++ toString dt.year ++ "/" ++ pad2 dt.month ++ "/" ++ project_id ++ "/" ++
    agent_type ++ "/" ++ artifact_type ++ "/seq_" ++ toString seq ++ "_" ++
    artifact_id ++ ".json"

/-- C5.  Artifact key determinism.  (1) The concrete instance: for
`proj123 / product_manager / analysis / abc123` at
`2023-05-15T10:30:45` with sequence number 5 the key is exactly
`projects/2023/05/proj123/product_manager/analysis/seq_5_abc123.json`,
whatever the ambient clock reads.  (2) In general, whenever the supplied
timestamp parses (after the Z-replacement) the key is
`projects/{YYYY}/{MM}/{project_id}/{agent_type}/{artifact_type}/seq_{n}_{artifact_id}.json`
with year and month taken from the parsed timestamp. -/
theorem C5_artifact_key_determinism :
    (∀ now : Date,
      formatPath "proj123" "product_manager" "analysis" "abc123"
          (some "2023-05-15T10:30:45") 5 now =
        "projects/2023/05/proj123/product_manager/analysis/seq_5_abc123.json") ∧
    (∀ (pid agty arty aid ts : String) (seq : Int) (now dt : Date),
      fromisoformat (strReplace ts "Z" "+00:00") = some dt → ts.isEmpty = false →
      1 ≤ seq →
      formatPath pid agty arty aid (some ts) seq now =
        "projects/" ++ toString dt.year ++ "/" ++ pad2 dt.month ++ "/" ++ pid ++ "/" ++
          agty ++ "/" ++ arty ++ "/seq_" ++ toString seq ++ "_" ++ aid ++ ".json") := by
  constructor
  · intro now
    have hne : "2023-05-15T10:30:45".isEmpty = false := rfl
    have hp : fromisoformat (strReplace "2023-05-15T10:30:45" "Z" "+00:00") =
        some ⟨2023, 5, 15⟩ := rfl
    simp only [formatPath, hne, Bool.false_eq_true, if_false, hp, Option.getD_some]
    rfl
  · intro pid agty arty aid ts seq now dt hparse hne hseq
    simp only [formatPath, hne, Bool.false_eq_true, if_false, hparse, Option.getD_some]
    have : ¬ seq < 1 := not_lt.mpr hseq
    simp only [this, if_false]

/-- C5 witness: the general key law applied at the concrete documented
input. -/
theorem C5_artifact_key_determinism_witness :
    formatPath "proj123" "product_manager" "analysis" "abc123"
        (some "2023-05-15T10:30:45") 5 ⟨1999, 12, 31⟩ =
      "projects/" ++ toString (2023 : Nat) ++ "/" ++ pad2 5 ++ "/proj123/" ++
        "product_manager" ++ "/" ++ "analysis" ++ "/seq_" ++ toString (5 : Int) ++
        "_" ++ "abc123" ++ ".json" := by
  exact C5_artifact_key_determinism.2 "proj123" "product_manager" "analysis" "abc123"
    "2023-05-15T10:30:45" 5 ⟨1999, 12, 31⟩ ⟨2023, 5, 15⟩ (by rfl) (by rfl) (by norm_num)

/-! ## S3 artifact store
Embeds `src/lambda/layers/common/python/agent_utils.py`, `S3Client`:
an S3 bucket modeled as a key → JSON-document map (assoc list), with
`list_objects_v2` returning keys under a prefix in lexicographic order,
capped at `MaxKeys` (1000 both for the sequence scan, which passes it
explicitly, and for the download listing, which relies on the service
default). -/

/-- The bucket contents: object key → stored JSON document. -/
abbrev S3Store := List (String × Val)

/-- `put_object` (upload_json, line 196): insert or overwrite. -/
def putObject (store : S3Store) (key : String) (v : Val) : S3Store :=
  setKey store key v

/-- `get_object` body: `none` models the NoSuchKey client error. -/
def getObject (store : S3Store) (key : String) : Option Val :=
  getKey store key

/-- Insertion into a sorted key list. -/
def insSorted (k : String) : List String → List String
  | [] => [k]
  | x :: xs => if k ≤ x then k :: x :: xs else x :: insSorted k xs

/-- Lexicographic sort of keys (S3 listing order). -/
def sortKeys : List String → List String
  | [] => []
  | x :: xs => insSorted x (sortKeys xs)

/-- `list_objects_v2(Prefix=pfx, MaxKeys=maxKeys)`: the stored keys under
the prefix, sorted, truncated. -/
def listKeys (store : S3Store) (pfx : String) (maxKeys : Nat) : List String :=
  (sortKeys ((store.map Prod.fst).filter (fun k => strPfx pfx k))).take maxKeys

/-- `key.split('/')[-1]`. -/
def lastSeg (key : String) : String := (key.splitOn "/").getLastD ""

/-- Python `needle in hay` substring test. -/
def strContains (hay needle : String) : Bool := decide (needle.data <:+: hay.data)

/-- Python `int(s)` on the digit strings that occur in artifact keys
(optional leading minus, then digits); `none` models the ValueError. -/
def pyInt (s : String) : Option Int := s.toInt?

/-- The month prefix `projects/{year}/{month}/{pid}/{agent}/{artifact}/`
(agent_utils.py lines 103 and 283). -/
def monthPfx (year month : Nat) (pid agty arty : String) : String :=
  "projects/" ++ toString year ++ "/" ++ pad2 month ++ "/" ++ pid ++ "/" ++
    agty ++ "/" ++ arty ++ "/"

/-- agent_utils.py lines 84-131, `_get_artifact_sequence_number`: scan the
*current-month* prefix (the wall clock `now`, not the artifact
timestamp), extract `seq_{n}_...` markers from filenames, and return
max+1 (1 when nothing parses). -/
def getArtifactSequenceNumber (store : S3Store) (now : Date)
    (pid agty arty : String) : Int :=
  let keys := listKeys store (monthPfx now.year now.month pid agty arty) 1000
  let maxSeq := keys.foldl (fun acc key =>
    let filename := lastSeg key
    if strPfx "seq_" filename then
      match (filename.splitOn "_").get? 1 with
      | some seqStr =>
        match pyInt seqStr with
        | some n => max acc n
        | none => acc
      | none => acc
    else acc) 0
  maxSeq + 1

/-- The `{response, s3_key, bucket, sequence_number}` result of
`upload_artifact` (the response/bucket fields carry no information the
claims use), plus the document as stamped in place. -/
structure UploadResult where
  s3_key : String
  sequence_number : Int
  stamped : List (String × Val)
deriving Repr

/-- agent_utils.py lines 204-234, `upload_artifact`: resolve the next
sequence number, format the key, stamp `sequence_number` into the
document, and write it. -/
def uploadArtifactS3 (store : S3Store) (now : Date) (data : List (String × Val))
    (pid agty arty aid : String) (timestamp : Option String) :
    S3Store × UploadResult :=
  let seq := getArtifactSequenceNumber store now pid agty arty
  let key := formatPath pid agty arty aid timestamp seq now
  let stamped := setKey data "sequence_number" (vnum seq)
  (putObject store key (vobj stamped), ⟨key, seq, stamped⟩)

/-- agent_utils.py lines 236-252, `download_json`: read and deserialize,
re-raising the client error on a missing key. -/
def downloadJson (store : S3Store) (key : String) : Except String Val :=
  match getObject store key with
  | some v => .ok v
  | none => .error ("NoSuchKey: " ++ key)

/-- Maximum of `(sequence, key)` pairs under Python tuple order: what
`matching_keys.sort(reverse=True); matching_keys[0]` selects. -/
def pickMax : List (Int × String) → Option (Int × String)
  | [] => none
  | x :: xs =>
    match pickMax xs with
    | none => some x
    | some y => if x.1 > y.1 ∨ (x.1 = y.1 ∧ y.2 < x.2) then some x else some y

/-- One step of the download match filter (agent_utils.py lines 293-302):
keep a listed key when its filename contains `_{artifact_id}.json` and
its `seq_` marker parses, pairing it with the parsed sequence number. -/
def matchEntry (aid key : String) : Option (Int × String) :=
  let filename := lastSeg key
  if strContains filename ("_" ++ aid ++ ".json") then
    match (filename.splitOn "_").get? 1 with
    | some seqStr => (pyInt seqStr).map (fun n => (n, key))
    | none => none
  else none

/-- agent_utils.py lines 254-319, `download_artifact`: list the month
prefix of the supplied timestamp, keep keys whose filename contains
`_{artifact_id}.json` and carry a parsable sequence marker, download the
entry with the highest `(sequence, key)`; with no match, fall back to the
exact key formatted with sequence number 1. -/
def downloadArtifact (store : S3Store) (now : Date)
    (pid agty arty aid : String) (timestamp : Option String) : Except String Val :=
  let dt := match timestamp with
    | none => now
    | some s => if s.isEmpty then now
        else (fromisoformat (strReplace s "Z" "+00:00")).getD now
  let listed := listKeys store (monthPfx dt.year dt.month pid agty arty) 1000
  let matching := listed.filterMap (matchEntry aid)
  match pickMax matching with
  | some (_, key) => downloadJson store key
  | none => downloadJson store (formatPath pid agty arty aid timestamp 1 now)

/-! Assoc-list facts used for the store reasoning. -/

lemma getKey_setKey_self (l : List (String × Val)) (k : String) (v : Val) :
    getKey (setKey l k v) k = some v := by
  induction l with
  | nil => simp [setKey, getKey]
  | cons p rest ih =>
    by_cases h : p.1 = k
    · simp [setKey, h, getKey]
    · simp only [setKey]
      rw [if_neg h]
      simpa [getKey, List.find?, h] using ih

lemma setKey_of_fresh {l : List (String × Val)} {k : String} (v : Val)
    (h : k ∉ l.map Prod.fst) : setKey l k v = l ++ [(k, v)] := by
  induction l with
  | nil => rfl
  | cons p rest ih =>
    simp only [List.map_cons, List.mem_cons] at h
    push_neg at h
    simp only [setKey]
    rw [if_neg (fun he => h.1 he.symm)]
    rw [ih h.2]
    rfl

lemma strPfx_append (p t : String) : strPfx p (p ++ t) = true := by
  have h : p.data <+: (p ++ t).data := by
    rw [String.data_append]
    exact List.prefix_append p.data t.data
  simp only [strPfx, decide_eq_true_eq]
  exact h

lemma listKeys_all_filtered {S : S3Store} {pfx : String}
    (h : ∀ k ∈ S.map Prod.fst, strPfx pfx k = false) (maxKeys : Nat) :
    listKeys S pfx maxKeys = [] := by
  have : (S.map Prod.fst).filter (fun k => strPfx pfx k) = [] := by
    rw [List.filter_eq_nil_iff]
    intro a ha
    simp [h a ha]
  simp [listKeys, this, sortKeys]

lemma matchEntry_key {aid key : String} {x : Int × String}
    (h : matchEntry aid key = some x) : x.2 = key := by
  simp only [matchEntry] at h
  split at h
  · split at h
    · rcases Option.map_eq_some'.mp h with ⟨n, _, hx⟩
      rw [← hx]
    · exact absurd h (by simp)
  · exact absurd h (by simp)

lemma formatPath_decomp (pid agty arty aid ts : String) (seq : Int) (now dt : Date)
    (hparse : fromisoformat (strReplace ts "Z" "+00:00") = some dt)
    (hne : ts.isEmpty = false) (hseq : 1 ≤ seq) :
    formatPath pid agty arty aid (some ts) seq now =
      monthPfx dt.year dt.month pid agty arty ++
        ("seq_" ++ toString seq ++ "_" ++ aid ++ ".json") := by
  simp only [formatPath, hne, Bool.false_eq_true, if_false, hparse, Option.getD_some,
    not_lt.mpr hseq, monthPfx]
  rw [show ("/seq_" : String) = "/" ++ "seq_" from rfl]
  simp only [String.append_assoc]

/-- C6.  Round-trip artifact: with the store holding only objects outside
the month prefix of the supplied timestamp (arbitrarily many artifacts
under sibling prefixes), and the wall-clock month agreeing with the
timestamp's month (a single, non-concurrent writer), uploading the
document `d` for `(pid, agty, arty, aid)` assigns sequence number 1, and
downloading with the same four identifiers and timestamp returns exactly
`d` extended with that `sequence_number` field. -/
theorem C6_roundtrip_artifact (S : S3Store) (d : List (String × Val))
    (pid agty arty aid ts : String) (now dt : Date)
    (hparse : fromisoformat (strReplace ts "Z" "+00:00") = some dt)
    (hne : ts.isEmpty = false)
    (hy : dt.year = now.year) (hm : dt.month = now.month)
    (hclean : ∀ k ∈ S.map Prod.fst,
      strPfx (monthPfx now.year now.month pid agty arty) k = false) :
    (uploadArtifactS3 S now d pid agty arty aid (some ts)).2.sequence_number = 1 ∧
    downloadArtifact (uploadArtifactS3 S now d pid agty arty aid (some ts)).1 now
        pid agty arty aid (some ts) =
      .ok (vobj (setKey d "sequence_number" (vnum ((1 : Int) : Rat)))) := by
  have hseq1 : getArtifactSequenceNumber S now pid agty arty = 1 := by
    simp [getArtifactSequenceNumber, listKeys_all_filtered hclean]
  have hkey : formatPath pid agty arty aid (some ts) 1 now =
      monthPfx dt.year dt.month pid agty arty ++
        ("seq_" ++ toString (1 : Int) ++ "_" ++ aid ++ ".json") :=
    formatPath_decomp pid agty arty aid ts 1 now dt hparse hne le_rfl
  have hkeyNow : formatPath pid agty arty aid (some ts) 1 now =
      monthPfx now.year now.month pid agty arty ++
        ("seq_" ++ toString (1 : Int) ++ "_" ++ aid ++ ".json") := by
    rw [hkey, hy, hm]
  set K := formatPath pid agty arty aid (some ts) 1 now with hK
  have hKpfx : strPfx (monthPfx now.year now.month pid agty arty) K = true := by
    rw [hkeyNow]; exact strPfx_append _ _
  have hfresh : K ∉ S.map Prod.fst := fun hmem => by
    have := hclean K hmem
    rw [hKpfx] at this
    exact Bool.noConfusion this
  have hup : uploadArtifactS3 S now d pid agty arty aid (some ts) =
      (putObject S K (vobj (setKey d "sequence_number" (vnum ((1 : Int) : Rat)))),
        ⟨K, 1, setKey d "sequence_number" (vnum ((1 : Int) : Rat))⟩) := by
    simp only [uploadArtifactS3, hseq1, ← hK]
  refine ⟨by rw [hup], ?_⟩
  rw [hup]
  have hstore : putObject S K (vobj (setKey d "sequence_number" (vnum ((1 : Int) : Rat)))) =
      S ++ [(K, vobj (setKey d "sequence_number" (vnum ((1 : Int) : Rat))))] := by
    simp only [putObject]
    exact setKey_of_fresh _ hfresh
  have hlisted : listKeys (S ++ [(K, vobj (setKey d "sequence_number"
      (vnum ((1 : Int) : Rat))))]) (monthPfx now.year now.month pid agty arty) 1000 = [K] := by
    simp only [listKeys, List.map_append, List.filter_append, List.map_cons, List.map_nil]
    rw [List.filter_eq_nil_iff.mpr (fun a ha => by simp [hclean a ha])]
    simp [hKpfx, sortKeys, insSorted]
  have hget : getObject (putObject S K (vobj (setKey d "sequence_number"
      (vnum ((1 : Int) : Rat))))) K =
      some (vobj (setKey d "sequence_number" (vnum ((1 : Int) : Rat)))) := by
    simp only [putObject, getObject]
    exact getKey_setKey_self _ _ _
  simp only [downloadArtifact, hne, Bool.false_eq_true, if_false, hparse, Option.getD_some]
  rw [hstore] at hget ⊢
  rw [hy, hm, hlisted]
  cases hmk : matchEntry aid K with
  | none =>
    simp only [List.filterMap_cons, hmk, List.filterMap_nil, pickMax]
    simp only [downloadJson, ← hK, hget]
  | some b =>
    simp only [List.filterMap_cons, hmk, List.filterMap_nil, pickMax]
    have hb2 : b.2 = K := matchEntry_key hmk
    cases b with
    | mk n k =>
      simp only at hb2
      subst hb2
      simp only [downloadJson, hget]

/-- C6 witness: a concrete store holding one artifact under a sibling
prefix, a concrete document, and the documented identifiers. -/
theorem C6_roundtrip_artifact_witness :
    (uploadArtifactS3 [("projects/2023/05/other/pm/analysis/seq_9_z.json", vnull)]
        ⟨2023, 5, 1⟩ [("a", vstr "b")] "p1" "ag" "an" "id1"
        (some "2023-05-15T10:30:45")).2.sequence_number = 1 ∧
    downloadArtifact (uploadArtifactS3
        [("projects/2023/05/other/pm/analysis/seq_9_z.json", vnull)]
        ⟨2023, 5, 1⟩ [("a", vstr "b")] "p1" "ag" "an" "id1"
        (some "2023-05-15T10:30:45")).1 ⟨2023, 5, 1⟩ "p1" "ag" "an" "id1"
        (some "2023-05-15T10:30:45") =
      .ok (vobj (setKey [("a", vstr "b")] "sequence_number" (vnum ((1 : Int) : Rat)))) :=
  C6_roundtrip_artifact [("projects/2023/05/other/pm/analysis/seq_9_z.json", vnull)]
    [("a", vstr "b")] "p1" "ag" "an" "id1" "2023-05-15T10:30:45" ⟨2023, 5, 1⟩ ⟨2023, 5, 15⟩
    (by rfl) (by rfl) (by rfl) (by rfl)
    (by intro k hk; fin_cases hk; rfl)

/-! ## In-place stamping of the caller's document (upload_artifact)
`upload_artifact` (agent_utils.py line 226) executes
`data['sequence_number'] = sequence_number` on the dict object the caller
passed, before serializing it — it takes no copy.  To express the
mutation of the *caller's* object, the document parameter is passed as a
reference into an explicit heap. -/

/-- A heap of dict objects, keyed by reference. -/
abbrev Heap := List (Nat × List (String × Val))

/-- Dereference. -/
def heapGet (h : Heap) (r : Nat) : Option (List (String × Val)) :=
  (h.find? (fun p => p.1 = r)).map (fun p => p.2)

/-- In-place update of the object behind a reference. -/
def heapSet : Heap → Nat → List (String × Val) → Heap
  | [], r, v => [(r, v)]
  | (r', v') :: rest, r, v =>
    if r' = r then (r, v) :: rest else (r', v') :: heapSet rest r v

/-- agent_utils.py lines 204-234 with the `data` argument passed by
reference: resolves the sequence number, stamps it into the caller's
dict in place, writes the stamped document, and returns the result
(`none` only for a dangling reference, which Python cannot produce). -/
def uploadArtifactRef (heap : Heap) (r : Nat) (store : S3Store) (now : Date)
    (pid agty arty aid : String) (timestamp : Option String) :
    Option (Heap × S3Store × UploadResult) :=
  match heapGet heap r with
  | none => none
  | some data =>
    let res := uploadArtifactS3 store now data pid agty arty aid timestamp
    some (heapSet heap r res.2.stamped, res.1, res.2)

lemma heapGet_heapSet_self (h : Heap) (r : Nat) (v : List (String × Val)) :
    heapGet (heapSet h r v) r = some v := by
  induction h with
  | nil => simp [heapSet, heapGet]
  | cons p rest ih =>
    by_cases hr : p.1 = r
    · simp [heapSet, hr, heapGet]
    · simp only [heapSet]
      rw [if_neg hr]
      simpa [heapGet, List.find?, hr] using ih

/-- C10.  `upload_artifact` mutates its argument in place: after the call,
the dict behind the caller's reference contains a `sequence_number` key
equal to the returned sequence number (the stamp happens on the caller's
object, not on a copy). -/
theorem C10_upload_stamps_caller_document (heap : Heap) (r : Nat) (store : S3Store)
    (now : Date) (pid agty arty aid : String) (ts : Option String)
    (data : List (String × Val)) (h : heapGet heap r = some data) :
    ∃ heap' store' res, uploadArtifactRef heap r store now pid agty arty aid ts =
        some (heap', store', res) ∧
      heapGet heap' r =
        some (setKey data "sequence_number" (vnum (res.sequence_number : Rat))) ∧
      getKey (setKey data "sequence_number" (vnum (res.sequence_number : Rat)))
          "sequence_number" = some (vnum (res.sequence_number : Rat)) := by
  refine ⟨heapSet heap r (uploadArtifactS3 store now data pid agty arty aid ts).2.stamped,
    (uploadArtifactS3 store now data pid agty arty aid ts).1,
    (uploadArtifactS3 store now data pid agty arty aid ts).2, ?_, ?_, ?_⟩
  · simp only [uploadArtifactRef, h]
  · rw [heapGet_heapSet_self]
    simp only [uploadArtifactS3]
  · exact getKey_setKey_self _ _ _

/-- C10 witness: a one-object heap and an empty store. -/
theorem C10_upload_stamps_caller_document_witness :
    ∃ heap' store' res,
      uploadArtifactRef [(0, [("a", vstr "b")])] 0 [] ⟨2024, 1, 2⟩ "p" "ag" "an" "id"
          (some "2024-01-02T00:00:00") = some (heap', store', res) ∧
      heapGet heap' 0 =
        some (setKey [("a", vstr "b")] "sequence_number" (vnum (res.sequence_number : Rat))) ∧
      getKey (setKey [("a", vstr "b")] "sequence_number" (vnum (res.sequence_number : Rat)))
          "sequence_number" = some (vnum (res.sequence_number : Rat)) :=
  C10_upload_stamps_caller_document [(0, [("a", vstr "b")])] 0 [] ⟨2024, 1, 2⟩
    "p" "ag" "an" "id" (some "2024-01-02T00:00:00") [("a", vstr "b")] (by rfl)

/-! ## CloudFormation Event Parser — template handling
Embeds `src/lambda/action_group/aws/cfn-event-parser/index.py` lines
81-100: how a retrieved template body is folded into the handler's
result.  A template body is either the raw string (YAML / textual
templates) or a parsed JSON structure (boto3 returns a dict for JSON
templates, which line 90's `isinstance(template_body, str)` check
anticipates). -/

/-- A retrieved `TemplateBody`. -/
inductive TBody where
  | tstr : String → TBody
  | tval : Val → TBody
deriving Repr

/-- Python truthiness of a template body. -/
def TBody.truthy : TBody → Bool
  | tstr s => !s.isEmpty
  | tval v => v.truthy

/-- The serialized (textual) form of a template body: a string body is
its own text, a structured body is its JSON rendering. -/
def serializedForm : TBody → String
  | .tstr s => s
  | .tval v => dumps v

/-- The template-related fields the handler may add to its result. -/
structure CfnTemplateInfo where
  template : Option TBody := none
  hasTemplate : Option Bool := none
  templateSummary : Option String := none
  resourcesCount : Option Nat := none
  failedResourceDefinition : Option Val := none
deriving Repr

/-- Python `len(x)`; `none` models the TypeError for unsized values. -/
def pyLen : Val → Option Nat
  | vstr s => some s.length
  | varr xs => some xs.length
  | vobj fs => some fs.length
  | _ => none

/-- Python `k in x` for the values `len` accepts. -/
def pyContainsKey : Val → String → Option Bool
  | vobj fs, k => some (fs.any (fun p => p.1 = k))
  | varr xs, k => some (xs.any (fun v => match v with | vstr s => s = k | _ => false))
  | vstr s, k => some (strContains s k)
  | _, _ => none

/-- Python `x[k]`; `none` models the raise (missing key or unsubscriptable
value). -/
def pyIndex : Val → String → Option Val
  | vobj fs, k => getKey fs k
  | _, _ => none

/-- The `try` block of lines 89-98: parse the big template string, count
its resources, and isolate the failed resource's definition; any raise
inside leaves the fields assigned so far (Python assigns
`resourcesCount` before attempting the rest). -/
def tryParsePart (base : CfnTemplateInfo) (logical_resource_id s : String) :
    CfnTemplateInfo :=
  match jsonLoads s with
  | some (vobj fs) =>
    let resources := getKeyD fs "Resources" (vobj [])
    (match pyLen resources with
    | none => base
    | some n =>
      let base := { base with resourcesCount := some n }
      if logical_resource_id.isEmpty then base
      else
        match pyContainsKey resources logical_resource_id with
        | none => base
        | some false => base
        | some true =>
          match pyIndex (vobj fs) "Resources" with
          | none => base
          | some resVal =>
            match pyIndex resVal logical_resource_id with
            | none => base
            | some defn => { base with failedResourceDefinition := some defn })
  | some _ => base
  | none => base

/-- cfn-event-parser/index.py lines 81-100: a truthy *string* body longer
than 50,000 characters yields the summary fields (and the best-effort
parsed extras); any other truthy body — a string of ≤ 50,000 characters
or a non-string body of any size — is embedded verbatim under
`template`; a falsy body adds nothing. -/
def addTemplateInfo (logical_resource_id : String) (template_body : Option TBody) :
    CfnTemplateInfo :=
  match template_body with
  | none => {}
  | some tb =>
    if tb.truthy then
      match tb with
      | .tstr s =>
        if s.length > 50000 then
          tryParsePart
            { templateSummary := some "Template retrieved but too large to include in response",
              hasTemplate := some true } logical_resource_id s
        else { template := some tb }
      | .tval _ => { template := some tb }
    else {}

lemma tryParsePart_frame (base : CfnTemplateInfo) (lrid s : String) :
    (tryParsePart base lrid s).template = base.template ∧
    (tryParsePart base lrid s).hasTemplate = base.hasTemplate ∧
    (tryParsePart base lrid s).templateSummary = base.templateSummary := by
  unfold tryParsePart
  repeat first
    | exact ⟨rfl, rfl, rfl⟩
    | split
    | dsimp only

/-- The 50,001-character string used in the C7 counterexample. -/
def longA : String := String.mk (List.replicate 50001 'a')

/-- A structured (non-string) template body whose serialized form exceeds
50,000 characters. -/
def bigBody : TBody := TBody.tval (vobj [("k", vstr longA)])

lemma escList_replicate_a (n : Nat) :
    escList (List.replicate n 'a') = List.replicate n 'a' := by
  induction n with
  | zero => rfl
  | succ n ih =>
    rw [List.replicate_succ, escList, ih]
    rfl

lemma serializedForm_bigBody_length : (serializedForm bigBody).length = 50010 := by
  have hesc : escList longA.data = List.replicate 50001 'a' := by
    show escList (List.replicate 50001 'a') = _
    exact escList_replicate_a 50001
  have hlenA : (String.mk (escList longA.data)).length = 50001 := by
    rw [hesc]
    show (List.replicate 50001 'a').length = 50001
    rw [List.length_replicate]
  simp only [serializedForm, bigBody, dumps, dumpsObj, dumpStr]
  simp only [String.length_append, hlenA]
  rfl

/-- C7 counterexample to the claim as stated: a non-string template body
whose serialized form has 50,010 characters (> 50,000) is embedded
verbatim under `template`, and the result has neither `hasTemplate` nor
`templateSummary` — the summarization branch only fires for *string*
bodies (the `isinstance(template_body, str)` conjunct of line 84). -/
theorem C7_counterexample :
    50000 < (serializedForm bigBody).length ∧
    (addTemplateInfo "res1" (some bigBody)).template = some bigBody ∧
    (addTemplateInfo "res1" (some bigBody)).hasTemplate = none ∧
    (addTemplateInfo "res1" (some bigBody)).templateSummary = none := by
  refine ⟨?_, rfl, rfl, rfl⟩
  rw [serializedForm_bigBody_length]
  norm_num

/-- C7.  Large-template handling as the code behaves: (1) a string body
longer than 50,000 characters produces `hasTemplate = true` and the
`templateSummary` note and never the `template` field; (2) a nonempty
string body of at most 50,000 characters is embedded verbatim with
neither summary field; (3) a truthy non-string body is embedded verbatim
with neither summary field, regardless of its serialized size; (4) a
falsy body contributes no field at all. -/
theorem C7_large_template_summarization :
    (∀ (lrid s : String), 50000 < s.length →
      (addTemplateInfo lrid (some (.tstr s))).hasTemplate = some true ∧
      (addTemplateInfo lrid (some (.tstr s))).templateSummary =
        some "Template retrieved but too large to include in response" ∧
      (addTemplateInfo lrid (some (.tstr s))).template = none) ∧
    (∀ (lrid s : String), s.isEmpty = false → s.length ≤ 50000 →
      (addTemplateInfo lrid (some (.tstr s))).template = some (.tstr s) ∧
      (addTemplateInfo lrid (some (.tstr s))).hasTemplate = none ∧
      (addTemplateInfo lrid (some (.tstr s))).templateSummary = none) ∧
    (∀ (lrid : String) (v : Val), v.truthy = true →
      (addTemplateInfo lrid (some (.tval v))).template = some (.tval v) ∧
      (addTemplateInfo lrid (some (.tval v))).hasTemplate = none ∧
      (addTemplateInfo lrid (some (.tval v))).templateSummary = none) ∧
    (∀ (lrid : String) (tb : TBody), tb.truthy = false →
      addTemplateInfo lrid (some tb) = {}) := by
  refine ⟨?_, ?_, ?_, ?_⟩
  · intro lrid s hlen
    have hne : s.isEmpty = false := by
      rcases hie : s.isEmpty with _ | _
      · rfl
      · rw [String.isEmpty_iff] at hie
        subst hie
        simp at hlen
    have htr : (TBody.tstr s).truthy = true := by simp [TBody.truthy, hne]
    simp only [addTemplateInfo, htr, if_true, hlen, gt_iff_lt, if_pos hlen]
    have hfr := tryParsePart_frame
      { templateSummary := some "Template retrieved but too large to include in response",
        hasTemplate := some true } lrid s
    exact ⟨hfr.2.1.trans rfl, hfr.2.2.trans rfl, hfr.1.trans rfl⟩
  · intro lrid s hne hlen
    have htr : (TBody.tstr s).truthy = true := by simp [TBody.truthy, hne]
    simp only [addTemplateInfo, htr, if_true, gt_iff_lt, if_neg (not_lt.mpr hlen)]
    exact ⟨by trivial, by trivial, by trivial⟩
  · intro lrid v htr
    simp only [addTemplateInfo, TBody.truthy, htr, if_true]
    exact ⟨by trivial, by trivial, by trivial⟩
  · intro lrid tb htr
    simp only [addTemplateInfo, htr, Bool.false_eq_true, if_false]

/-- C7 witness: the amended rules applied at concrete bodies — a
50,001-character string (summarized), the string "small" (verbatim), the
structured `bigBody` value (verbatim despite its serialized size), and
the empty string (nothing added). -/
theorem C7_large_template_summarization_witness :
    ((addTemplateInfo "r" (some (.tstr longA))).hasTemplate = some true ∧
      (addTemplateInfo "r" (some (.tstr longA))).templateSummary =
        some "Template retrieved but too large to include in response" ∧
      (addTemplateInfo "r" (some (.tstr longA))).template = none) ∧
    ((addTemplateInfo "r" (some (.tstr "small"))).template = some (.tstr "small") ∧
      (addTemplateInfo "r" (some (.tstr "small"))).hasTemplate = none ∧
      (addTemplateInfo "r" (some (.tstr "small"))).templateSummary = none) ∧
    ((addTemplateInfo "r" (some bigBody)).template = some bigBody ∧
      (addTemplateInfo "r" (some bigBody)).hasTemplate = none ∧
      (addTemplateInfo "r" (some bigBody)).templateSummary = none) ∧
    addTemplateInfo "r" (some (.tstr "")) = {} := by
  have hlong : 50000 < longA.length := by
    have h : longA.length = 50001 := by
      show (List.replicate 50001 'a').length = 50001
      rw [List.length_replicate]
    rw [h]
    norm_num
  refine ⟨C7_large_template_summarization.1 "r" longA hlong,
    C7_large_template_summarization.2.1 "r" "small" (by rfl) (by decide),
    C7_large_template_summarization.2.2.1 "r" (vobj [("k", vstr longA)]) (by rfl),
    C7_large_template_summarization.2.2.2 "r" (.tstr "") (by rfl)⟩

/-! ## Agent base: state loading
Embeds `src/lambda/layers/common/python/agent_base.py`. -/

/-- The agent's in-memory fields that `load_state` may reassign. -/
structure AgentFields where
  agent_id : String
  agent_type : String
  created_at : String
  state : String
  memory : Val
deriving Repr

/-- A state record as the state table returns it; every field read with
`item.get(..., default)`, so each may be absent. -/
structure StateItem where
  agentType : Option String := none
  state : Option String := none
  memory : Option String := none
  createdAt : Option String := none
deriving Repr

/-- agent_base.py lines 90-125, `Agent.load_state`, with the state-table
lookup outcome passed in (`.error` = the store raised, `.ok none` = no
record found).  Mirrors the Python control flow: inside the `try`, the
fields are reassigned in source order — `agent_type`, `state`, then
`memory` via `json.loads` (which can raise), then `created_at` — and an
exception anywhere is caught, returning `False` while keeping whatever
assignments already executed. -/
def load_state (f : AgentFields) (lookup : Except Unit (Option StateItem)) :
    AgentFields × Bool :=
  match lookup with
  | .error _ => (f, false)
  | .ok none => (f, false)
  | .ok (some item) =>
    let f₁ := { f with agent_type := item.agentType.getD f.agent_type }
    let f₂ := { f₁ with state := item.state.getD f₁.state }
    match jsonLoads (item.memory.getD "[]") with
    | none => (f₂, false)
    | some mem =>
      let f₃ := { f₂ with memory := mem }
      ({ f₃ with created_at := item.createdAt.getD f₃.created_at }, true)

/-- The baseline fields of a freshly constructed agent used in the C8
evaluation (agent_base.py lines 42-46). -/
def f0 : AgentFields :=
  { agent_id := "product_manager-12345678", agent_type := "base",
    created_at := "2023-01-01T00:00:00", state := "initialized", memory := varr [] }

/-- A stored record whose `memory` attribute is not valid JSON. -/
def badItem : StateItem :=
  { agentType := some "product_manager", state := some "analysis_completed",
    memory := some "not json", createdAt := some "2022-12-31T00:00:00" }

/-- C8 counterexample to the claim as stated: with a record whose
`memory` field fails to deserialize, `load_state` returns `false` (the
store error is treated as not-found) but the agent's `agent_type` has
already been overwritten — the in-memory fields are *not* all left
unchanged. -/
theorem C8_counterexample :
    (load_state f0 (.ok (some badItem))).2 = false ∧
    (load_state f0 (.ok (some badItem))).1.agent_type = "product_manager" ∧
    f0.agent_type = "base" ∧
    (load_state f0 (.ok (some badItem))).1.agent_type ≠ f0.agent_type := by
  refine ⟨rfl, rfl, rfl, ?_⟩
  intro h
  rw [show (load_state f0 (.ok (some badItem))).1.agent_type = "product_manager" from rfl,
    show f0.agent_type = "base" from rfl] at h
  exact absurd h (by decide)

/-- C8.  `load_state` error behavior as the code behaves: (1) a store
read error returns `false` with every field unchanged; (2) a missing
record returns `false` with every field unchanged; (3) a record whose
`memory` attribute fails to deserialize returns `false`, but with
`agent_type` and `state` already reassigned from the record (only
`memory` and `created_at` keep their prior values); (4) a record whose
`memory` deserializes returns `true` with all four fields restored. -/
theorem C8_load_state_error_atomicity :
    (∀ (f : AgentFields) (e : Unit), load_state f (.error e) = (f, false)) ∧
    (∀ f : AgentFields, load_state f (.ok none) = (f, false)) ∧
    (∀ (f : AgentFields) (item : StateItem),
      jsonLoads (item.memory.getD "[]") = none →
      load_state f (.ok (some item)) =
        ({ f with agent_type := item.agentType.getD f.agent_type,
                  state := item.state.getD f.state }, false)) ∧
    (∀ (f : AgentFields) (item : StateItem) (mem : Val),
      jsonLoads (item.memory.getD "[]") = some mem →
      load_state f (.ok (some item)) =
        ({ f with agent_type := item.agentType.getD f.agent_type,
                  state := item.state.getD f.state,
                  memory := mem,
                  created_at := item.createdAt.getD f.created_at }, true)) := by
  refine ⟨fun f e => rfl, fun f => rfl, ?_, ?_⟩
  · intro f item h
    simp only [load_state, h]
  · intro f item mem h
    simp only [load_state, h]

/-- C8 witness: the four branches of `C8_load_state_error_atomicity`
applied to concrete inputs (`badItem`'s memory fails to parse, `"[]"`
parses to the empty list). -/
theorem C8_load_state_error_atomicity_witness :
    load_state f0 (.error ()) = (f0, false) ∧
    load_state f0 (.ok none) = (f0, false) ∧
    load_state f0 (.ok (some badItem)) =
      ({ f0 with agent_type := "product_manager",
                 state := "analysis_completed" }, false) ∧
    load_state f0 (.ok (some { badItem with memory := some "[]" })) =
      ({ f0 with agent_type := "product_manager",
                 state := "analysis_completed",
                 memory := varr [],
                 created_at := "2022-12-31T00:00:00" }, true) := by
  refine ⟨C8_load_state_error_atomicity.1 f0 (),
    C8_load_state_error_atomicity.2.1 f0, ?_, ?_⟩
  · exact C8_load_state_error_atomicity.2.2.1 f0 badItem (by rfl)
  · exact C8_load_state_error_atomicity.2.2.2 f0
      { badItem with memory := some "[]" } (varr []) (by rfl)

/-! ## Domain agents
Embeds the eight `src/lambda/action_group/*/index.py` agents.  An
operation is a function from the invocation input and the world state to
a result (`Except` models a Python raise escaping the method) and an
updated world state.  The world state bundles the agent's in-memory
fields, the bound backing services (artifact store, state table, queue,
event bus — the deployed handlers bind all of them), and the ambient
environment: the uuid4 stream, the wall clock, and the hosted model's
reply.  The model call is represented as returning normally with the
environment's content — prompt text is therefore not materialized (no
claim inspects it), and the per-operation `except` handlers for
model/store failures are unreachable in the model. -/

/-- A persisted state record (agent_base.py lines 77-88). -/
structure StateRecord where
  agentId : String
  stateId : String
  agentType : String
  state : String
  memory : String
  createdAt : String
  updatedAt : String
deriving Repr

/-- A published domain event (agent_base.py lines 176-198). -/
structure EventRec where
  source : String
  detailType : String
  detail : List (String × Val)
deriving Repr

/-- A queued point-to-point message (agent_base.py lines 136-158). -/
structure MsgRec where
  sender_id : String
  recipient_id : String
  content : List (String × Val)
  timestamp : String
deriving Repr

/-- The world threaded through an agent invocation. -/
structure AgentSt where
  fields : AgentFields
  s3 : S3Store
  stateRecs : List StateRecord
  events : List EventRec
  queue : List MsgRec
  uploads : List String
  uuids : List String
  llmContent : String
  now : Date
  nowIso : String
deriving Repr

/-- An operation's input dict. -/
abbrev Input := List (String × Val)

/-- `input_data.get(k, dflt)`. -/
def inGet (input : Input) (k : String) (dflt : Val) : Val := getKeyD input k dflt

/-- `v.get(k, dflt)` on a response/artifact dict. -/
def getValD (v : Val) (k : String) (dflt : Val) : Val :=
  match v with
  | vobj fs => getKeyD fs k dflt
  | _ => dflt

/-- Python `str(x)` as used when a value is interpolated into a path or
an error message.  Strings render as themselves; non-string scalars use
their Python spellings; containers use a JSON-like rendering (no claim
depends on the rendering of a non-string value). -/
def pyStr : Val → String
  | vstr s => s
  | vnull => "None"
  | vbool true => "True"
  | vbool false => "False"
  | vnum q => dumpNum q
  | v => dumps v

/-- `str(uuid.uuid4())` drawn from the environment's stream. -/
def freshUuid (st : AgentSt) : String × AgentSt :=
  (st.uuids.headD "00000000-0000-4000-8000-000000000000", { st with uuids := st.uuids.tail })

/-- `self.ask_llm(messages)` (agent_base.py lines 221-236): the hosted
model replies normally with the environment's content, normalized to a
`{'content': …}` dict by the LLM client (§4.3). -/
def ask_llm (st : AgentSt) : Val := vobj [("content", vstr st.llmContent)]

/-- `list.append` on the memory value (a Python `.append` on a non-list
would raise; the operations only run with list-valued memory). -/
def vappend : Val → Val → Val
  | varr xs, x => varr (xs ++ [x])
  | m, _ => m

/-- `self.add_to_memory(item)` (agent_base.py lines 127-134). -/
def addToMemory (st : AgentSt) (item : Val) : AgentSt :=
  { st with fields.memory := vappend st.fields.memory item }

/-- `self.state = lbl`. -/
def setStateLabel (st : AgentSt) (lbl : String) : AgentSt :=
  { st with fields.state := lbl }

/-- `self.save_state()` (agent_base.py lines 66-88): append a new
timestamp-keyed record capturing the current fields. -/
def save_state (st : AgentSt) : AgentSt :=
  let rec_ : StateRecord :=
    { agentId := st.fields.agent_id, stateId := st.nowIso,
      agentType := st.fields.agent_type, state := st.fields.state,
      memory := dumps st.fields.memory, createdAt := st.fields.created_at,
      updatedAt := st.nowIso }
  { st with stateRecs := st.stateRecs ++ [rec_] }

/-- `self.emit_event(detail_type, detail)` (agent_base.py lines 176-198):
inject `agent_id`/`agent_type` and publish. -/
def emit_event (st : AgentSt) (detailType : String) (detail : List (String × Val)) :
    AgentSt :=
  let detail := setKey (setKey detail "agent_id" (vstr st.fields.agent_id))
    "agent_type" (vstr st.fields.agent_type)
  let ev : EventRec :=
    { source := "agent." ++ st.fields.agent_type, detailType := detailType,
      detail := detail }
  { st with events := st.events ++ [ev] }

/-- `self.send_message(recipient_id, content)` (agent_base.py 136-158). -/
def send_message (st : AgentSt) (recipient : String) (content : List (String × Val)) :
    AgentSt :=
  let msg : MsgRec :=
    { sender_id := st.fields.agent_id, recipient_id := recipient,
      content := content, timestamp := st.nowIso }
  { st with queue := st.queue ++ [msg] }

/-- `self.artifacts.upload_artifact(...)` through the bound store; the
written key is also recorded in the `uploads` trace. -/
def agentUpload (st : AgentSt) (data : List (String × Val))
    (pid agty arty aid ts : String) : UploadResult × AgentSt :=
  let r := uploadArtifactS3 st.s3 st.now data pid agty arty aid (some ts)
  (r.2, { st with s3 := r.1, uploads := st.uploads ++ [r.2.s3_key] })

/-- `self.save_artifact(content, key)` with a dict content
(agent_base.py lines 200-219): a raw `upload_json` to the given key. -/
def agentSaveArtifact (st : AgentSt) (content : Val) (key : String) : AgentSt :=
  { st with s3 := putObject st.s3 key content, uploads := st.uploads ++ [key] }

/-- `self.artifacts.download_artifact(...)` through the bound store. -/
def agentDownload (st : AgentSt) (pid agty arty aid ts : String) : Except String Val :=
  downloadArtifact st.s3 st.now pid agty arty aid (some ts)

/-! ### Materials: Property Target agent
Embeds `src/lambda/action_group/materials/property_target/index.py`.
In all three operations the "append memory / set state / persist state"
calls are commented out in the source (lines 178-186, 313-320, 381-388),
so no corresponding step appears here. -/

/-- property_target/index.py lines 403-439, `_parse_target_properties`:
the reference parser ignores the model's text and returns a fixed
illustrative structure. -/
def parseTargetProperties (_llm_response : String) : Val :=
  vobj [
    ("bandgap", vobj [("value", vnum 1.5), ("unit", vstr "eV"),
      ("range", varr [vnum 1.3, vnum 1.7]), ("priority", vstr "high")]),
    ("carrier_mobility", vobj [("value", vnum 1000), ("unit", vstr "cm²/Vs"),
      ("range", varr [vnum 800, vnum 1200]), ("priority", vstr "medium")]),
    ("thermal_conductivity", vobj [("value", vnum 50), ("unit", vstr "W/mK"),
      ("range", varr [vnum 40, vnum 60]), ("priority", vstr "low")]),
    ("constraints", vobj [("toxicity", vstr "low"), ("cost", vstr "medium"),
      ("rare_elements", vstr "avoid")])]

/-- property_target/index.py lines 78-209, `set_target_properties`. -/
def set_target_properties (st : AgentSt) (input : Input) :
    Except String Val × AgentSt :=
  let requirements := inGet input "requirements" (vstr "")
  let (u1, st) := freshUuid st
  let session_id := inGet input "session_id" (vstr u1)
  let timestamp := inGet input "timestamp" (vstr st.nowIso)
  let user_id := inGet input "user_id" (vstr "default_user")
  if !requirements.truthy then (.error "Requirements are required", st)
  else
    let response := ask_llm st
    let target_properties := parseTargetProperties (pyStr (getValD response "content" (vstr "")))
    let (aid, st) := freshUuid st
    let (art, st) := agentUpload st
      [("session_id", session_id), ("requirements", requirements),
       ("target_properties", target_properties), ("user_id", user_id),
       ("created_at", timestamp)]
      (pyStr session_id) "property_target" "target_properties" aid (pyStr timestamp)
    let s3_key := art.s3_key
    let st := emit_event st "TargetPropertiesSet"
      [("session_id", session_id), ("requirements", requirements),
       ("s3_key", vstr s3_key)]
    (.ok (vobj [("status", vstr "success"), ("session_id", session_id),
      ("target_properties", target_properties), ("s3_key", vstr s3_key)]), st)

/-- property_target/index.py lines 211-333, `analyze_tradeoffs`. -/
def analyze_tradeoffs (st : AgentSt) (input : Input) : Except String Val × AgentSt :=
  let target_properties := inGet input "target_properties" (vobj [])
  let priority_feature := inGet input "priority_feature" (vstr "")
  let (u1, st) := freshUuid st
  let session_id := inGet input "session_id" (vstr u1)
  let timestamp := inGet input "timestamp" (vstr st.nowIso)
  if !target_properties.truthy then (.error "Target properties are required", st)
  else
    let response := ask_llm st
    let tradeoff_analysis := getValD response "content" (vstr "")
    let (aid, st) := freshUuid st
    let (art, st) := agentUpload st
      [("session_id", session_id), ("target_properties", target_properties),
       ("priority_feature", priority_feature),
       ("tradeoff_analysis", tradeoff_analysis), ("created_at", timestamp)]
      (pyStr session_id) "property_target" "tradeoff_analysis" aid (pyStr timestamp)
    let s3_key := art.s3_key
    (.ok (vobj [("status", vstr "success"), ("session_id", session_id),
      ("tradeoff_analysis", tradeoff_analysis), ("s3_key", vstr s3_key)]), st)

/-- property_target/index.py lines 335-401, `validate_targets`. -/
def validate_targets (st : AgentSt) (input : Input) : Except String Val × AgentSt :=
  let target_properties := inGet input "target_properties" (vobj [])
  let (u1, st) := freshUuid st
  let session_id := inGet input "session_id" (vstr u1)
  let timestamp := inGet input "timestamp" (vstr st.nowIso)
  if !target_properties.truthy then (.error "Target properties are required", st)
  else
    let response := ask_llm st
    let validation_result := getValD response "content" (vstr "")
    let (aid, st) := freshUuid st
    let (art, st) := agentUpload st
      [("session_id", session_id), ("target_properties", target_properties),
       ("validation_result", validation_result), ("created_at", timestamp)]
      (pyStr session_id) "property_target" "validation_result" aid (pyStr timestamp)
    let s3_key := art.s3_key
    (.ok (vobj [("status", vstr "success"), ("session_id", session_id),
      ("validation_result", validation_result), ("s3_key", vstr s3_key)]), st)

/-! ### Materials: Inverse Design agent
Embeds `src/lambda/action_group/materials/inverse_design/index.py`
(state-mutation calls commented out at lines 188-195, 337-344,
466-473). -/

/-- inverse_design/index.py lines 488-534, `_parse_candidate_materials`:
fixed illustrative candidates, independent of the model's text. -/
def parseCandidateMaterials (_llm_response : String) : Val :=
  varr [
    vobj [("id", vstr "mat-001"), ("composition", vstr "Cu(In,Ga)Se2"),
      ("structure", vstr "chalcopyrite"),
      ("predicted_properties", vobj [("bandgap", vnum 1.4),
        ("carrier_mobility", vnum 950), ("thermal_conductivity", vnum 45)]),
      ("confidence", vnum 0.85)],
    vobj [("id", vstr "mat-002"), ("composition", vstr "CdTe"),
      ("structure", vstr "zinc blende"),
      ("predicted_properties", vobj [("bandgap", vnum 1.5),
        ("carrier_mobility", vnum 1100), ("thermal_conductivity", vnum 52)]),
      ("confidence", vnum 0.78)],
    vobj [("id", vstr "mat-003"), ("composition", vstr "GaAs"),
      ("structure", vstr "zinc blende"),
      ("predicted_properties", vobj [("bandgap", vnum 1.42),
        ("carrier_mobility", vnum 8500), ("thermal_conductivity", vnum 55)]),
      ("confidence", vnum 0.92)]]

/-- One step of `_parse_ranked_materials` (inverse_design/index.py lines
552-554): stamp `rank` and `rank_reason` into one candidate dict;
`none` models the raise on a non-dict element. -/
def rankStamp (i : Nat) (m : Val) : Option Val :=
  match m with
  | vobj fs => some (vobj (setKey (setKey fs "rank" (vnum ((i : Rat) + 1)))
      "rank_reason" (vstr ("Ranked #" ++ toString (i + 1) ++
        " due to balance of properties and feasibility"))))
  | _ => none

/-- inverse_design/index.py lines 536-559, `_parse_ranked_materials`: the
candidates in input order with rank information stamped in (the final
`sort` by the just-assigned increasing rank is the identity); `none`
models the raise when the input is not a list of dicts, which the
operation's `except` turns into a failed result. -/
def parseRankedMaterials (cand : Val) : Option Val :=
  match cand with
  | varr xs => (xs.enum.mapM (fun p => rankStamp p.1 p.2)).map varr
  | _ => none

/-- inverse_design/index.py lines 78-217, `design_materials`. -/
def design_materials (st : AgentSt) (input : Input) : Except String Val × AgentSt :=
  let target_properties := inGet input "target_properties" (vobj [])
  let constraints := inGet input "constraints" (vobj [])
  let (u1, st) := freshUuid st
  let session_id := inGet input "session_id" (vstr u1)
  let timestamp := inGet input "timestamp" (vstr st.nowIso)
  if !target_properties.truthy then (.error "Target properties are required", st)
  else
    let response := ask_llm st
    let candidate_materials := parseCandidateMaterials (pyStr (getValD response "content" (vstr "")))
    let (aid, st) := freshUuid st
    let (art, st) := agentUpload st
      [("session_id", session_id), ("target_properties", target_properties),
       ("constraints", constraints), ("candidate_materials", candidate_materials),
       ("created_at", timestamp)]
      (pyStr session_id) "inverse_design" "candidate_materials" aid (pyStr timestamp)
    let s3_key := art.s3_key
    let st := emit_event st "MaterialsDesigned"
      [("session_id", session_id), ("s3_key", vstr s3_key)]
    (.ok (vobj [("status", vstr "success"), ("session_id", session_id),
      ("candidate_materials", candidate_materials), ("s3_key", vstr s3_key)]), st)

/-- inverse_design/index.py lines 219-357, `rank_candidates`. -/
def rank_candidates (st : AgentSt) (input : Input) : Except String Val × AgentSt :=
  let candidate_materials := inGet input "candidate_materials" (varr [])
  let ranking_criteria := inGet input "ranking_criteria" (vobj [])
  let (u1, st) := freshUuid st
  let session_id := inGet input "session_id" (vstr u1)
  let timestamp := inGet input "timestamp" (vstr st.nowIso)
  if !candidate_materials.truthy then (.error "Candidate materials are required", st)
  else
    let _response := ask_llm st
    match parseRankedMaterials candidate_materials with
    | none =>
      (.ok (vobj [("status", vstr "failed"), ("error", vstr "TypeError")]), st)
    | some ranked_materials =>
      let (aid, st) := freshUuid st
      let (art, st) := agentUpload st
        [("session_id", session_id), ("candidate_materials", candidate_materials),
         ("ranking_criteria", ranking_criteria),
         ("ranked_materials", ranked_materials), ("created_at", timestamp)]
        (pyStr session_id) "inverse_design" "ranked_materials" aid (pyStr timestamp)
      let s3_key := art.s3_key
      (.ok (vobj [("status", vstr "success"), ("session_id", session_id),
        ("ranked_materials", ranked_materials), ("s3_key", vstr s3_key)]), st)

/-- inverse_design/index.py lines 359-486, `evaluate_feasibility`. -/
def evaluate_feasibility (st : AgentSt) (input : Input) : Except String Val × AgentSt :=
  let material := inGet input "material" (vobj [])
  let (u1, st) := freshUuid st
  let session_id := inGet input "session_id" (vstr u1)
  let timestamp := inGet input "timestamp" (vstr st.nowIso)
  if !material.truthy then (.error "Material is required", st)
  else
    let response := ask_llm st
    let feasibility_evaluation := getValD response "content" (vstr "")
    let (aid, st) := freshUuid st
    let (art, st) := agentUpload st
      [("session_id", session_id), ("material", material),
       ("feasibility_evaluation", feasibility_evaluation), ("created_at", timestamp)]
      (pyStr session_id) "inverse_design" "feasibility_evaluation" aid (pyStr timestamp)
    let s3_key := art.s3_key
    (.ok (vobj [("status", vstr "success"), ("session_id", session_id),
      ("feasibility_evaluation", feasibility_evaluation), ("s3_key", vstr s3_key)]), st)

/-! ### Materials: Experiment Planning agent
Embeds `src/lambda/action_group/materials/experiment_planning/index.py`
(state-mutation calls commented out at lines 205-212, 359-366,
501-508). -/

/-- experiment_planning/index.py lines 523-585, `_parse_experiment_plan`:
fixed illustrative plan. -/
def parseExperimentPlan (_llm_response : String) : Val :=
  vobj [
    ("experiments", varr [
      vobj [("id", vstr "exp-001"), ("material_id", vstr "mat-001"),
        ("purpose", vstr "Bandgap measurement"), ("method", vstr "UV-Vis Spectroscopy"),
        ("conditions", vobj [("temperature", vstr "25°C"), ("atmosphere", vstr "ambient"),
          ("sample_preparation", vstr "thin film on glass substrate")]),
        ("expected_duration", vstr "2 hours"), ("priority", vstr "high")],
      vobj [("id", vstr "exp-002"), ("material_id", vstr "mat-001"),
        ("purpose", vstr "Carrier mobility measurement"), ("method", vstr "Hall Effect"),
        ("conditions", vobj [("temperature", vstr "25°C"), ("magnetic_field", vstr "0.5 T"),
          ("sample_preparation", vstr "van der Pauw configuration")]),
        ("expected_duration", vstr "3 hours"), ("priority", vstr "medium")],
      vobj [("id", vstr "exp-003"), ("material_id", vstr "mat-002"),
        ("purpose", vstr "Thermal conductivity measurement"),
        ("method", vstr "Laser Flash Analysis"),
        ("conditions", vobj [("temperature_range", vstr "25-200°C"),
          ("atmosphere", vstr "nitrogen"), ("sample_preparation", vstr "pellet")]),
        ("expected_duration", vstr "4 hours"), ("priority", vstr "low")]]),
    ("experimental_design", vobj [("type", vstr "factorial"),
      ("factors", varr [vstr "temperature", vstr "composition"]),
      ("levels", varr [vnum 3, vnum 2]), ("replicates", vnum 2)]),
    ("sequence", varr [vstr "exp-001", vstr "exp-002", vstr "exp-003"]),
    ("total_estimated_time", vstr "9 hours")]

/-- experiment_planning/index.py lines 587-612,
`_parse_optimized_conditions`: fixed illustrative structure. -/
def parseOptimizedConditions (_llm_response : String) : Val :=
  vobj [
    ("original_conditions", vobj [("temperature", vstr "25°C"),
      ("atmosphere", vstr "ambient"),
      ("sample_preparation", vstr "thin film on glass substrate")]),
    ("optimized_conditions", vobj [("temperature", vstr "30°C"),
      ("atmosphere", vstr "nitrogen"),
      ("sample_preparation",
        vstr "thin film on glass substrate with annealing at 150°C for 1 hour")]),
    ("optimization_rationale",
      vstr "Increased temperature improves reaction kinetics, nitrogen atmosphere prevents oxidation, and annealing improves crystallinity."),
    ("expected_improvement",
      vstr "Estimated 15% increase in measurement accuracy and 20% reduction in variability.")]

/-- experiment_planning/index.py lines 614-653, `_parse_resource_estimate`:
fixed illustrative structure. -/
def parseResourceEstimate (_llm_response : String) : Val :=
  vobj [
    ("time_resources", vobj [("total_experiment_time", vstr "9 hours"),
      ("setup_time", vstr "3 hours"), ("analysis_time", vstr "4 hours"),
      ("total_calendar_time", vstr "2 days")]),
    ("material_resources", vobj [("sample_quantity", vstr "5 grams per material"),
      ("consumables", varr [vstr "glass substrates", vstr "solvents", vstr "nitrogen gas"])]),
    ("equipment_resources", varr [vstr "UV-Vis Spectrometer",
      vstr "Hall Effect Measurement System", vstr "Laser Flash Analyzer",
      vstr "Vacuum Annealing Furnace"]),
    ("human_resources", vobj [("technician_hours", vnum 16), ("scientist_hours", vnum 8)]),
    ("cost_estimate", vobj [("materials", vstr "$500"), ("equipment_time", vstr "$1,200"),
      ("labor", vstr "$2,400"), ("total", vstr "$4,100")])]

/-- experiment_planning/index.py lines 78-234, `create_experiment_plan`. -/
def create_experiment_plan (st : AgentSt) (input : Input) :
    Except String Val × AgentSt :=
  let materials := inGet input "materials" (varr [])
  let target_properties := inGet input "target_properties" (vobj [])
  let available_equipment := inGet input "available_equipment" (varr [])
  let (u1, st) := freshUuid st
  let session_id := inGet input "session_id" (vstr u1)
  let timestamp := inGet input "timestamp" (vstr st.nowIso)
  if !materials.truthy then (.error "Materials are required", st)
  else if !target_properties.truthy then (.error "Target properties are required", st)
  else
    let response := ask_llm st
    let experiment_plan := parseExperimentPlan (pyStr (getValD response "content" (vstr "")))
    let (aid, st) := freshUuid st
    let (art, st) := agentUpload st
      [("session_id", session_id), ("materials", materials),
       ("target_properties", target_properties),
       ("available_equipment", available_equipment),
       ("experiment_plan", experiment_plan), ("created_at", timestamp)]
      (pyStr session_id) "experiment_planning" "experiment_plan" aid (pyStr timestamp)
    let s3_key := art.s3_key
    let st := emit_event st "ExperimentPlanCreated"
      [("session_id", session_id), ("s3_key", vstr s3_key)]
    (.ok (vobj [("status", vstr "success"), ("session_id", session_id),
      ("experiment_plan", experiment_plan), ("s3_key", vstr s3_key)]), st)

/-- experiment_planning/index.py lines 236-379, `optimize_conditions`. -/
def optimize_conditions (st : AgentSt) (input : Input) : Except String Val × AgentSt :=
  let experiment := inGet input "experiment" (vobj [])
  let optimization_goal := inGet input "optimization_goal" (vstr "maximize_accuracy")
  let (u1, st) := freshUuid st
  let session_id := inGet input "session_id" (vstr u1)
  let timestamp := inGet input "timestamp" (vstr st.nowIso)
  if !experiment.truthy then (.error "Experiment is required", st)
  else
    let response := ask_llm st
    let optimized_conditions := parseOptimizedConditions (pyStr (getValD response "content" (vstr "")))
    let (aid, st) := freshUuid st
    let (art, st) := agentUpload st
      [("session_id", session_id), ("experiment", experiment),
       ("optimization_goal", optimization_goal),
       ("optimized_conditions", optimized_conditions), ("created_at", timestamp)]
      (pyStr session_id) "experiment_planning" "optimized_conditions" aid (pyStr timestamp)
    let s3_key := art.s3_key
    (.ok (vobj [("status", vstr "success"), ("session_id", session_id),
      ("optimized_conditions", optimized_conditions), ("s3_key", vstr s3_key)]), st)

/-- experiment_planning/index.py lines 381-521, `estimate_resources`. -/
def estimate_resources (st : AgentSt) (input : Input) : Except String Val × AgentSt :=
  let experiment_plan := inGet input "experiment_plan" (vobj [])
  let (u1, st) := freshUuid st
  let session_id := inGet input "session_id" (vstr u1)
  let timestamp := inGet input "timestamp" (vstr st.nowIso)
  if !experiment_plan.truthy then (.error "Experiment plan is required", st)
  else
    let response := ask_llm st
    let resource_estimate := parseResourceEstimate (pyStr (getValD response "content" (vstr "")))
    let (aid, st) := freshUuid st
    let (art, st) := agentUpload st
      [("session_id", session_id), ("experiment_plan", experiment_plan),
       ("resource_estimate", resource_estimate), ("created_at", timestamp)]
      (pyStr session_id) "experiment_planning" "resource_estimate" aid (pyStr timestamp)
    let s3_key := art.s3_key
    (.ok (vobj [("status", vstr "success"), ("session_id", session_id),
      ("resource_estimate", resource_estimate), ("s3_key", vstr s3_key)]), st)

/-! ### Business-dev: Product Manager agent
Embeds `src/lambda/action_group/bizdev/product-manager/index.py`. -/

/-- product-manager/index.py lines 80-164, `analyze_requirement`.  (The
per-operation `try`'s `except` → failed-dict return of lines 159-164 is
unreachable here: every modeled step returns normally.) -/
def analyze_requirement (st : AgentSt) (input : Input) : Except String Val × AgentSt :=
  let requirement := inGet input "requirement" (vstr "")
  let (u1, st) := freshUuid st
  let project_id := inGet input "project_id" (vstr u1)
  let timestamp := inGet input "timestamp" (vstr st.nowIso)
  let user_id := inGet input "user_id" (vstr "default_user")
  if !requirement.truthy then (.error "Requirement is required", st)
  else
    let response := ask_llm st
    let analysis := getValD response "content" (vstr "")
    let (analysis_id, st) := freshUuid st
    let (art, st) := agentUpload st
      [("project_id", project_id), ("requirement", requirement),
       ("analysis", analysis), ("user_id", user_id), ("created_at", timestamp)]
      (pyStr project_id) "product_manager" "analysis" analysis_id (pyStr timestamp)
    let s3_key := art.s3_key
    let st := addToMemory st (vobj [("type", vstr "analysis"),
      ("id", vstr analysis_id), ("project_id", project_id),
      ("s3_key", vstr s3_key), ("requirement", requirement),
      ("timestamp", timestamp)])
    let st := setStateLabel st "analysis_completed"
    let st := save_state st
    let st := emit_event st "RequirementAnalysisCompleted"
      [("project_id", project_id), ("analysis_id", vstr analysis_id),
       ("requirement", requirement), ("s3_key", vstr s3_key)]
    (.ok (vobj [("status", vstr "success"), ("project_id", project_id),
      ("analysis_id", vstr analysis_id), ("analysis", analysis),
      ("s3_key", vstr s3_key)]), st)

/-- Best-effort artifact fetch used by several operations: download, take
one field of the dict, and substitute the default on any failure
(download error or a non-dict document — the `.get` raise — both land in
the surrounding `except`). -/
def bestEffortField (st : AgentSt) (pid agty arty aid ts fieldName : String)
    (dflt : Val) : Val :=
  match agentDownload st pid agty arty aid ts with
  | .ok (vobj fs) => getKeyD fs fieldName dflt
  | _ => dflt

/-- product-manager/index.py lines 166-285, `create_user_stories`
(including the redundant second write through `save_artifact`, lines
232-242). -/
def create_user_stories (st : AgentSt) (input : Input) : Except String Val × AgentSt :=
  let requirement := inGet input "requirement" (vstr "")
  let analysis_id := inGet input "analysis_id" (vstr "")
  let (u1, st) := freshUuid st
  let project_id := inGet input "project_id" (vstr u1)
  let timestamp := inGet input "timestamp" (vstr st.nowIso)
  let user_id := inGet input "user_id" (vstr "default_user")
  if !requirement.truthy then (.error "Requirement is required", st)
  else
    let analysis := if analysis_id.truthy then
        bestEffortField st (pyStr project_id) "product_manager" "analysis"
          (pyStr analysis_id) (pyStr timestamp) "analysis" (vstr "")
      else vstr ""
    let _ := analysis
    let response := ask_llm st
    let user_stories := getValD response "content" (vstr "")
    let (stories_id, st) := freshUuid st
    let (art, st) := agentUpload st
      [("project_id", project_id), ("requirement", requirement),
       ("analysis_id", analysis_id), ("user_stories", user_stories),
       ("user_id", user_id), ("created_at", timestamp)]
      (pyStr project_id) "product_manager" "user_stories" stories_id (pyStr timestamp)
    let s3_key := art.s3_key
    let st := agentSaveArtifact st
      (vobj [("project_id", project_id), ("requirement", requirement),
        ("analysis_id", analysis_id), ("user_stories", user_stories),
        ("user_id", user_id), ("created_at", timestamp)]) s3_key
    let st := addToMemory st (vobj [("type", vstr "user_stories"),
      ("id", vstr stories_id), ("project_id", project_id),
      ("s3_key", vstr s3_key), ("requirement", requirement),
      ("timestamp", timestamp)])
    let st := setStateLabel st "user_stories_created"
    let st := save_state st
    let st := emit_event st "UserStoriesCreated"
      [("project_id", project_id), ("stories_id", vstr stories_id),
       ("requirement", requirement), ("s3_key", vstr s3_key)]
    let st := send_message st "architect"
      [("type", vstr "user_stories_ready"), ("project_id", project_id),
       ("stories_id", vstr stories_id), ("requirement", requirement),
       ("s3_key", vstr s3_key)]
    (.ok (vobj [("status", vstr "success"), ("project_id", project_id),
      ("stories_id", vstr stories_id), ("user_stories", user_stories),
      ("s3_key", vstr s3_key)]), st)

/-- product-manager/index.py lines 287-364, `create_competitive_analysis`. -/
def create_competitive_analysis (st : AgentSt) (input : Input) :
    Except String Val × AgentSt :=
  let requirement := inGet input "requirement" (vstr "")
  let (u1, st) := freshUuid st
  let project_id := inGet input "project_id" (vstr u1)
  let timestamp := inGet input "timestamp" (vstr st.nowIso)
  let user_id := inGet input "user_id" (vstr "default_user")
  if !requirement.truthy then (.error "Requirement is required", st)
  else
    let response := ask_llm st
    let competitive_analysis := getValD response "content" (vstr "")
    let (analysis_id, st) := freshUuid st
    let (art, st) := agentUpload st
      [("project_id", project_id), ("requirement", requirement),
       ("competitive_analysis", competitive_analysis),
       ("user_id", user_id), ("created_at", timestamp)]
      (pyStr project_id) "product_manager" "competitive_analysis" analysis_id
      (pyStr timestamp)
    let s3_key := art.s3_key
    let st := addToMemory st (vobj [("type", vstr "competitive_analysis"),
      ("id", vstr analysis_id), ("project_id", project_id),
      ("s3_key", vstr s3_key), ("requirement", requirement),
      ("timestamp", timestamp)])
    let st := setStateLabel st "competitive_analysis_created"
    let st := save_state st
    let st := emit_event st "CompetitiveAnalysisCreated"
      [("project_id", project_id), ("analysis_id", vstr analysis_id),
       ("requirement", requirement), ("s3_key", vstr s3_key)]
    (.ok (vobj [("status", vstr "success"), ("project_id", project_id),
      ("analysis_id", vstr analysis_id),
      ("competitive_analysis", competitive_analysis),
      ("s3_key", vstr s3_key)]), st)

/-- product-manager/index.py lines 366-502, `create_product_requirement_doc`. -/
def create_product_requirement_doc (st : AgentSt) (input : Input) :
    Except String Val × AgentSt :=
  let requirement := inGet input "requirement" (vstr "")
  let stories_id := inGet input "stories_id" (vstr "")
  let competitive_analysis_id := inGet input "competitive_analysis_id" (vstr "")
  let (u1, st) := freshUuid st
  let project_id := inGet input "project_id" (vstr u1)
  let timestamp := inGet input "timestamp" (vstr st.nowIso)
  let user_id := inGet input "user_id" (vstr "default_user")
  if !requirement.truthy then (.error "Requirement is required", st)
  else
    let user_stories := if stories_id.truthy then
        bestEffortField st (pyStr project_id) "product_manager" "user_stories"
          (pyStr stories_id) (pyStr timestamp) "user_stories" (vstr "")
      else vstr ""
    let competitive_analysis := if competitive_analysis_id.truthy then
        bestEffortField st (pyStr project_id) "product_manager" "competitive_analysis"
          (pyStr competitive_analysis_id) (pyStr timestamp) "competitive_analysis" (vstr "")
      else vstr ""
    let _ := (user_stories, competitive_analysis)
    let response := ask_llm st
    let prd := getValD response "content" (vstr "")
    let (prd_id, st) := freshUuid st
    let (art, st) := agentUpload st
      [("project_id", project_id), ("requirement", requirement),
       ("stories_id", stories_id),
       ("competitive_analysis_id", competitive_analysis_id), ("prd", prd),
       ("user_id", user_id), ("created_at", timestamp)]
      (pyStr project_id) "product_manager" "prd" prd_id (pyStr timestamp)
    let s3_key := art.s3_key
    let st := addToMemory st (vobj [("type", vstr "prd"), ("id", vstr prd_id),
      ("project_id", project_id), ("s3_key", vstr s3_key),
      ("requirement", requirement), ("timestamp", timestamp)])
    let st := setStateLabel st "prd_created"
    let st := save_state st
    let st := emit_event st "ProductRequirementDocCreated"
      [("project_id", project_id), ("prd_id", vstr prd_id),
       ("requirement", requirement), ("s3_key", vstr s3_key)]
    let st := send_message st "architect"
      [("type", vstr "prd_ready"), ("project_id", project_id),
       ("prd_id", vstr prd_id), ("requirement", requirement),
       ("s3_key", vstr s3_key)]
    let st := send_message st "project_manager"
      [("type", vstr "prd_ready"), ("project_id", project_id),
       ("prd_id", vstr prd_id), ("requirement", requirement),
       ("s3_key", vstr s3_key)]
    (.ok (vobj [("status", vstr "success"), ("project_id", project_id),
      ("prd_id", vstr prd_id), ("prd", prd), ("s3_key", vstr s3_key)]), st)

/-! ### Business-dev: Architect agent
Embeds `src/lambda/action_group/bizdev/architect/index.py`. -/

/-- Hard (required) artifact fetch: download and take two fields; any
failure is re-raised as the invalid-input-style error of the pattern
`Failed to load …: {original error}`. -/
def requiredFetch (st : AgentSt) (pid agty arty aid ts : String)
    (f1 f2 failMsg : String) : Except String (Val × Val) :=
  match agentDownload st pid agty arty aid ts with
  | .ok (vobj fs) => .ok (getKeyD fs f1 (vstr ""), getKeyD fs f2 (vstr ""))
  | .ok _ => .error (failMsg ++ "AttributeError")
  | .error e => .error (failMsg ++ e)

/-- architect/index.py lines 73-180, `create_architecture`. -/
def create_architecture (st : AgentSt) (input : Input) : Except String Val × AgentSt :=
  let requirement := inGet input "requirement" (vstr "")
  let prd_id := inGet input "prd_id" (vstr "")
  let (u1, st) := freshUuid st
  let project_id := inGet input "project_id" (vstr u1)
  let timestamp := inGet input "timestamp" (vstr st.nowIso)
  let user_id := inGet input "user_id" (vstr "default_user")
  if !requirement.truthy then (.error "Requirement is required", st)
  else
    let prd := if prd_id.truthy then
        bestEffortField st (pyStr project_id) "product_manager" "prd"
          (pyStr prd_id) (pyStr timestamp) "prd" (vstr "")
      else vstr ""
    let _ := prd
    let response := ask_llm st
    let architecture := getValD response "content" (vstr "")
    let (architecture_id, st) := freshUuid st
    let (art, st) := agentUpload st
      [("project_id", project_id), ("requirement", requirement),
       ("prd_id", prd_id), ("architecture", architecture),
       ("user_id", user_id), ("created_at", timestamp)]
      (pyStr project_id) "architect" "architecture" architecture_id (pyStr timestamp)
    let s3_key := art.s3_key
    let st := addToMemory st (vobj [("type", vstr "architecture"),
      ("id", vstr architecture_id), ("project_id", project_id),
      ("s3_key", vstr s3_key), ("requirement", requirement),
      ("timestamp", timestamp)])
    let st := setStateLabel st "architecture_created"
    let st := save_state st
    let st := emit_event st "ArchitectureCreated"
      [("project_id", project_id), ("architecture_id", vstr architecture_id),
       ("requirement", requirement), ("s3_key", vstr s3_key)]
    let st := send_message st "engineer"
      [("type", vstr "architecture_ready"), ("project_id", project_id),
       ("architecture_id", vstr architecture_id), ("requirement", requirement),
       ("s3_key", vstr s3_key)]
    (.ok (vobj [("status", vstr "success"), ("project_id", project_id),
      ("architecture_id", vstr architecture_id), ("architecture", architecture),
      ("s3_key", vstr s3_key)]), st)

/-- architect/index.py lines 182-262, `create_class_diagram`. -/
def create_class_diagram (st : AgentSt) (input : Input) : Except String Val × AgentSt :=
  let architecture_id := inGet input "architecture_id" (vstr "")
  let project_id := inGet input "project_id" (vstr "")
  let timestamp := inGet input "timestamp" (vstr st.nowIso)
  if !architecture_id.truthy then (.error "Architecture ID is required", st)
  else if !project_id.truthy then (.error "Project ID is required", st)
  else
    match requiredFetch st (pyStr project_id) "architect" "architecture"
        (pyStr architecture_id) (pyStr timestamp) "architecture" "requirement"
        "Failed to load architecture: " with
    | .error e => (.error e, st)
    | .ok (_architecture, _requirement) =>
      let response := ask_llm st
      let class_diagram := getValD response "content" (vstr "")
      let (diagram_id, st) := freshUuid st
      let (art, st) := agentUpload st
        [("project_id", project_id), ("architecture_id", architecture_id),
         ("class_diagram", class_diagram), ("created_at", timestamp)]
        (pyStr project_id) "architect" "class_diagram" diagram_id (pyStr timestamp)
      let s3_key := art.s3_key
      let st := addToMemory st (vobj [("type", vstr "class_diagram"),
        ("id", vstr diagram_id), ("architecture_id", architecture_id),
        ("s3_key", vstr s3_key), ("timestamp", timestamp)])
      let st := setStateLabel st "class_diagram_created"
      let st := save_state st
      (.ok (vobj [("status", vstr "success"), ("diagram_id", vstr diagram_id),
        ("class_diagram", class_diagram), ("s3_key", vstr s3_key)]), st)

/-- architect/index.py lines 264-350, `create_sequence_diagram`. -/
def create_sequence_diagram (st : AgentSt) (input : Input) :
    Except String Val × AgentSt :=
  let architecture_id := inGet input "architecture_id" (vstr "")
  let use_case := inGet input "use_case" (vstr "")
  let project_id := inGet input "project_id" (vstr "")
  let timestamp := inGet input "timestamp" (vstr st.nowIso)
  if !architecture_id.truthy then (.error "Architecture ID is required", st)
  else if !use_case.truthy then (.error "Use case is required", st)
  else if !project_id.truthy then (.error "Project ID is required", st)
  else
    match requiredFetch st (pyStr project_id) "architect" "architecture"
        (pyStr architecture_id) (pyStr timestamp) "architecture" "requirement"
        "Failed to load architecture: " with
    | .error e => (.error e, st)
    | .ok (_architecture, _requirement) =>
      let response := ask_llm st
      let sequence_diagram := getValD response "content" (vstr "")
      let (diagram_id, st) := freshUuid st
      let (art, st) := agentUpload st
        [("project_id", project_id), ("architecture_id", architecture_id),
         ("use_case", use_case), ("sequence_diagram", sequence_diagram),
         ("created_at", timestamp)]
        (pyStr project_id) "architect" "sequence_diagram" diagram_id (pyStr timestamp)
      let s3_key := art.s3_key
      let st := addToMemory st (vobj [("type", vstr "sequence_diagram"),
        ("id", vstr diagram_id), ("architecture_id", architecture_id),
        ("use_case", use_case), ("s3_key", vstr s3_key),
        ("timestamp", timestamp)])
      let st := setStateLabel st "sequence_diagram_created"
      let st := save_state st
      (.ok (vobj [("status", vstr "success"), ("diagram_id", vstr diagram_id),
        ("sequence_diagram", sequence_diagram), ("s3_key", vstr s3_key)]), st)

/-- architect/index.py lines 352-432, `create_api_design`. -/
def create_api_design (st : AgentSt) (input : Input) : Except String Val × AgentSt :=
  let architecture_id := inGet input "architecture_id" (vstr "")
  let project_id := inGet input "project_id" (vstr "")
  let timestamp := inGet input "timestamp" (vstr st.nowIso)
  if !architecture_id.truthy then (.error "Architecture ID is required", st)
  else if !project_id.truthy then (.error "Project ID is required", st)
  else
    match requiredFetch st (pyStr project_id) "architect" "architecture"
        (pyStr architecture_id) (pyStr timestamp) "architecture" "requirement"
        "Failed to load architecture: " with
    | .error e => (.error e, st)
    | .ok (_architecture, _requirement) =>
      let response := ask_llm st
      let api_design := getValD response "content" (vstr "")
      let (design_id, st) := freshUuid st
      let (art, st) := agentUpload st
        [("project_id", project_id), ("architecture_id", architecture_id),
         ("api_design", api_design), ("created_at", timestamp)]
        (pyStr project_id) "architect" "api_design" design_id (pyStr timestamp)
      let s3_key := art.s3_key
      let st := addToMemory st (vobj [("type", vstr "api_design"),
        ("id", vstr design_id), ("architecture_id", architecture_id),
        ("s3_key", vstr s3_key), ("timestamp", timestamp)])
      let st := setStateLabel st "api_design_created"
      let st := save_state st
      (.ok (vobj [("status", vstr "success"), ("design_id", vstr design_id),
        ("api_design", api_design), ("s3_key", vstr s3_key)]), st)

/-! ### Business-dev: Engineer agent
Embeds `src/lambda/action_group/bizdev/engineer/index.py`. -/

/-- engineer/index.py lines 80-190, `implement_code`. -/
def implement_code (st : AgentSt) (input : Input) : Except String Val × AgentSt :=
  let requirement := inGet input "requirement" (vstr "")
  let prd_id := inGet input "prd_id" (vstr "")
  let architecture_id := inGet input "architecture_id" (vstr "")
  let (u1, st) := freshUuid st
  let project_id := inGet input "project_id" (vstr u1)
  let user_id := inGet input "user_id" (vstr "default_user")
  let timestamp := inGet input "timestamp" (vstr st.nowIso)
  if !requirement.truthy then (.error "Requirement is required", st)
  else
    let prd := if prd_id.truthy then
        bestEffortField st (pyStr project_id) "product_manager" "prd"
          (pyStr prd_id) (pyStr timestamp) "prd" (vstr "")
      else vstr ""
    let architecture := if architecture_id.truthy then
        bestEffortField st (pyStr project_id) "architect" "architecture"
          (pyStr architecture_id) (pyStr timestamp) "architecture" (vstr "")
      else vstr ""
    let _ := (prd, architecture)
    let response := ask_llm st
    let implementation := getValD response "content" (vstr "")
    let (implementation_id, st) := freshUuid st
    let (art, st) := agentUpload st
      [("project_id", project_id), ("requirement", requirement),
       ("prd_id", prd_id), ("architecture_id", architecture_id),
       ("implementation", implementation), ("user_id", user_id),
       ("created_at", timestamp)]
      (pyStr project_id) "engineer" "implementation" implementation_id (pyStr timestamp)
    let s3_key := art.s3_key
    let st := addToMemory st (vobj [("type", vstr "implementation"),
      ("id", vstr implementation_id), ("project_id", project_id),
      ("s3_key", vstr s3_key), ("requirement", requirement),
      ("timestamp", timestamp)])
    let st := setStateLabel st "code_implemented"
    let st := save_state st
    let st := emit_event st "CodeImplemented"
      [("project_id", project_id), ("implementation_id", vstr implementation_id),
       ("requirement", requirement), ("s3_key", vstr s3_key)]
    (.ok (vobj [("status", vstr "success"), ("project_id", project_id),
      ("implementation_id", vstr implementation_id),
      ("implementation", implementation), ("s3_key", vstr s3_key)]), st)

/-- engineer/index.py lines 192-288, `review_code`. -/
def review_code (st : AgentSt) (input : Input) : Except String Val × AgentSt :=
  let implementation_id := inGet input "implementation_id" (vstr "")
  let project_id := inGet input "project_id" (vstr "")
  let requirement₀ := inGet input "requirement" (vstr "")
  let timestamp := inGet input "timestamp" (vstr st.nowIso)
  let user_id := inGet input "user_id" (vstr "default_user")
  if !implementation_id.truthy then (.error "Implementation ID is required", st)
  else if !project_id.truthy then (.error "Project ID is required", st)
  else
    match agentDownload st (pyStr project_id) "engineer" "implementation"
        (pyStr implementation_id) (pyStr timestamp) with
    | .ok (vobj fs) =>
      let implementation := getKeyD fs "implementation" (vstr "")
      let requirement := getKeyD fs "requirement" requirement₀
      let _ := implementation
      let response := ask_llm st
      let review := getValD response "content" (vstr "")
      let (review_id, st) := freshUuid st
      let (art, st) := agentUpload st
        [("project_id", project_id), ("implementation_id", implementation_id),
         ("requirement", requirement), ("review", review),
         ("user_id", user_id), ("created_at", timestamp)]
        (pyStr project_id) "engineer" "review" review_id (pyStr timestamp)
      let s3_key := art.s3_key
      let st := addToMemory st (vobj [("type", vstr "review"),
        ("id", vstr review_id), ("implementation_id", implementation_id),
        ("project_id", project_id), ("s3_key", vstr s3_key),
        ("timestamp", timestamp)])
      let st := setStateLabel st "code_reviewed"
      let st := save_state st
      let st := emit_event st "CodeReviewed"
        [("project_id", project_id), ("review_id", vstr review_id),
         ("implementation_id", implementation_id),
         ("s3_key", vstr s3_key)]
      (.ok (vobj [("status", vstr "success"), ("project_id", project_id),
        ("review_id", vstr review_id), ("review", review),
        ("s3_key", vstr s3_key)]), st)
    | .ok _ => (.error "Failed to load implementation: AttributeError", st)
    | .error e => (.error ("Failed to load implementation: " ++ e), st)

/-- engineer/index.py lines 290-402, `fix_bugs`. -/
def fix_bugs (st : AgentSt) (input : Input) : Except String Val × AgentSt :=
  let implementation_id := inGet input "implementation_id" (vstr "")
  let review_id := inGet input "review_id" (vstr "")
  let project_id := inGet input "project_id" (vstr "")
  let timestamp := inGet input "timestamp" (vstr st.nowIso)
  let user_id := inGet input "user_id" (vstr "default_user")
  if !implementation_id.truthy then (.error "Implementation ID is required", st)
  else if !project_id.truthy then (.error "Project ID is required", st)
  else
    match agentDownload st (pyStr project_id) "engineer" "implementation"
        (pyStr implementation_id) (pyStr timestamp) with
    | .ok (vobj fs) =>
      let implementation := getKeyD fs "implementation" (vstr "")
      let requirement := getKeyD fs "requirement" (vstr "")
      let _ := implementation
      let review := if review_id.truthy then
          bestEffortField st (pyStr project_id) "engineer" "review"
            (pyStr review_id) (pyStr timestamp) "review" (vstr "")
        else vstr ""
      let _ := review
      let response := ask_llm st
      let fixed_implementation := getValD response "content" (vstr "")
      let (fixed_id, st) := freshUuid st
      let (art, st) := agentUpload st
        [("project_id", project_id), ("implementation_id", implementation_id),
         ("review_id", review_id), ("requirement", requirement),
         ("fixed_implementation", fixed_implementation),
         ("user_id", user_id), ("created_at", timestamp)]
        (pyStr project_id) "engineer" "fixed_implementation" fixed_id (pyStr timestamp)
      let s3_key := art.s3_key
      let st := addToMemory st (vobj [("type", vstr "fixed_implementation"),
        ("id", vstr fixed_id), ("implementation_id", implementation_id),
        ("project_id", project_id), ("s3_key", vstr s3_key),
        ("timestamp", timestamp)])
      let st := setStateLabel st "bugs_fixed"
      let st := save_state st
      let st := emit_event st "BugsFixed"
        [("project_id", project_id), ("fixed_id", vstr fixed_id),
         ("implementation_id", implementation_id),
         ("s3_key", vstr s3_key)]
      (.ok (vobj [("status", vstr "success"), ("project_id", project_id),
        ("fixed_id", vstr fixed_id),
        ("fixed_implementation", fixed_implementation),
        ("s3_key", vstr s3_key)]), st)
    | .ok _ => (.error "Failed to load implementation: AttributeError", st)
    | .error e => (.error ("Failed to load implementation: " ++ e), st)

/-! ### AWS: Cloud Architect agent
Embeds `src/lambda/action_group/aws/cloud-architect/index.py`. -/

/-- cloud-architect/index.py lines 84-177, `design_cloud_architecture`. -/
def design_cloud_architecture (st : AgentSt) (input : Input) :
    Except String Val × AgentSt :=
  let requirement := inGet input "requirement" (vstr "")
  let architecture_type := inGet input "architecture_type" (vstr "")
  let (u1, st) := freshUuid st
  let project_id := inGet input "project_id" (vstr u1)
  let timestamp := inGet input "timestamp" (vstr st.nowIso)
  let user_id := inGet input "user_id" (vstr "default_user")
  if !requirement.truthy then (.error "Requirement is required", st)
  else
    let response := ask_llm st
    let cloud_architecture := getValD response "content" (vstr "")
    let (architecture_id, st) := freshUuid st
    let (art, st) := agentUpload st
      [("project_id", project_id), ("requirement", requirement),
       ("architecture_type", architecture_type),
       ("cloud_architecture", cloud_architecture), ("user_id", user_id),
       ("created_at", timestamp)]
      (pyStr project_id) "cloud_architect" "cloud_architecture" architecture_id
      (pyStr timestamp)
    let s3_key := art.s3_key
    let st := addToMemory st (vobj [("type", vstr "cloud_architecture"),
      ("id", vstr architecture_id), ("project_id", project_id),
      ("s3_key", vstr s3_key), ("requirement", requirement),
      ("architecture_type", architecture_type), ("timestamp", timestamp)])
    let st := setStateLabel st "cloud_architecture_created"
    let st := save_state st
    let st := emit_event st "CloudArchitectureCreated"
      [("project_id", project_id), ("architecture_id", vstr architecture_id),
       ("requirement", requirement), ("architecture_type", architecture_type),
       ("s3_key", vstr s3_key)]
    (.ok (vobj [("status", vstr "success"), ("project_id", project_id),
      ("architecture_id", vstr architecture_id),
      ("cloud_architecture", cloud_architecture), ("s3_key", vstr s3_key)]), st)

/-- cloud-architect/index.py lines 179-290, `evaluate_architecture`. -/
def evaluate_architecture (st : AgentSt) (input : Input) : Except String Val × AgentSt :=
  let architecture_id := inGet input "architecture_id" (vstr "")
  let pillars := inGet input "pillars" (vstr "")
  let project_id := inGet input "project_id" (vstr "")
  let timestamp := inGet input "timestamp" (vstr st.nowIso)
  if !architecture_id.truthy then (.error "Architecture ID is required", st)
  else if !project_id.truthy then (.error "Project ID is required", st)
  else
    match requiredFetch st (pyStr project_id) "cloud_architect" "cloud_architecture"
        (pyStr architecture_id) (pyStr timestamp) "cloud_architecture" "requirement"
        "Failed to load cloud architecture: " with
    | .error e => (.error e, st)
    | .ok (_cloud_architecture, _requirement) =>
      let response := ask_llm st
      let evaluation := getValD response "content" (vstr "")
      let (evaluation_id, st) := freshUuid st
      let (art, st) := agentUpload st
        [("project_id", project_id), ("architecture_id", architecture_id),
         ("pillars", pillars), ("evaluation", evaluation),
         ("created_at", timestamp)]
        (pyStr project_id) "cloud_architect" "architecture_evaluation" evaluation_id
        (pyStr timestamp)
      let s3_key := art.s3_key
      let st := addToMemory st (vobj [("type", vstr "architecture_evaluation"),
        ("id", vstr evaluation_id), ("project_id", project_id),
        ("architecture_id", architecture_id), ("s3_key", vstr s3_key),
        ("pillars", pillars), ("timestamp", timestamp)])
      let st := setStateLabel st "architecture_evaluated"
      let st := save_state st
      let st := emit_event st "ArchitectureEvaluationCompleted"
        [("project_id", project_id), ("architecture_id", architecture_id),
         ("evaluation_id", vstr evaluation_id), ("pillars", pillars),
         ("s3_key", vstr s3_key)]
      (.ok (vobj [("status", vstr "success"), ("project_id", project_id),
        ("architecture_id", architecture_id),
        ("evaluation_id", vstr evaluation_id), ("evaluation", evaluation),
        ("s3_key", vstr s3_key)]), st)

/-- cloud-architect/index.py lines 292-388, `create_infrastructure_diagram`. -/
def create_infrastructure_diagram (st : AgentSt) (input : Input) :
    Except String Val × AgentSt :=
  let architecture_id := inGet input "architecture_id" (vstr "")
  let diagram_type := inGet input "diagram_type" (vstr "high-level")
  let project_id := inGet input "project_id" (vstr "")
  let timestamp := inGet input "timestamp" (vstr st.nowIso)
  if !architecture_id.truthy then (.error "Architecture ID is required", st)
  else if !project_id.truthy then (.error "Project ID is required", st)
  else
    match requiredFetch st (pyStr project_id) "cloud_architect" "cloud_architecture"
        (pyStr architecture_id) (pyStr timestamp) "cloud_architecture" "requirement"
        "Failed to load cloud architecture: " with
    | .error e => (.error e, st)
    | .ok (_cloud_architecture, _requirement) =>
      let response := ask_llm st
      let diagram := getValD response "content" (vstr "")
      let (diagram_id, st) := freshUuid st
      let (art, st) := agentUpload st
        [("project_id", project_id), ("architecture_id", architecture_id),
         ("diagram_type", diagram_type), ("infrastructure_diagram", diagram),
         ("created_at", timestamp)]
        (pyStr project_id) "cloud_architect" "infrastructure_diagram" diagram_id
        (pyStr timestamp)
      let s3_key := art.s3_key
      let st := addToMemory st (vobj [("type", vstr "infrastructure_diagram"),
        ("id", vstr diagram_id), ("project_id", project_id),
        ("architecture_id", architecture_id), ("diagram_type", diagram_type),
        ("s3_key", vstr s3_key), ("timestamp", timestamp)])
      let st := setStateLabel st "infrastructure_diagram_created"
      let st := save_state st
      (.ok (vobj [("status", vstr "success"), ("project_id", project_id),
        ("architecture_id", architecture_id), ("diagram_id", vstr diagram_id),
        ("infrastructure_diagram", diagram), ("s3_key", vstr s3_key)]), st)

/-- cloud-architect/index.py lines 390-491, `optimize_cost`. -/
def optimize_cost (st : AgentSt) (input : Input) : Except String Val × AgentSt :=
  let architecture_id := inGet input "architecture_id" (vstr "")
  let monthly_budget := inGet input "monthly_budget" (vstr "")
  let optimization_focus := inGet input "optimization_focus" (vstr "all")
  let project_id := inGet input "project_id" (vstr "")
  let timestamp := inGet input "timestamp" (vstr st.nowIso)
  if !architecture_id.truthy then (.error "Architecture ID is required", st)
  else if !project_id.truthy then (.error "Project ID is required", st)
  else
    match requiredFetch st (pyStr project_id) "cloud_architect" "cloud_architecture"
        (pyStr architecture_id) (pyStr timestamp) "cloud_architecture" "requirement"
        "Failed to load cloud architecture: " with
    | .error e => (.error e, st)
    | .ok (_cloud_architecture, _requirement) =>
      let response := ask_llm st
      let cost_optimization := getValD response "content" (vstr "")
      let (optimization_id, st) := freshUuid st
      let (art, st) := agentUpload st
        [("project_id", project_id), ("architecture_id", architecture_id),
         ("monthly_budget", monthly_budget),
         ("optimization_focus", optimization_focus),
         ("cost_optimization", cost_optimization), ("created_at", timestamp)]
        (pyStr project_id) "cloud_architect" "cost_optimization" optimization_id
        (pyStr timestamp)
      let s3_key := art.s3_key
      let st := addToMemory st (vobj [("type", vstr "cost_optimization"),
        ("id", vstr optimization_id), ("project_id", project_id),
        ("architecture_id", architecture_id), ("monthly_budget", monthly_budget),
        ("optimization_focus", optimization_focus), ("s3_key", vstr s3_key),
        ("timestamp", timestamp)])
      let st := setStateLabel st "cost_optimization_completed"
      let st := save_state st
      (.ok (vobj [("status", vstr "success"), ("project_id", project_id),
        ("architecture_id", architecture_id),
        ("optimization_id", vstr optimization_id),
        ("cost_optimization", cost_optimization), ("s3_key", vstr s3_key)]), st)

/-- cloud-architect/index.py lines 493-603, `design_disaster_recovery`. -/
def design_disaster_recovery (st : AgentSt) (input : Input) :
    Except String Val × AgentSt :=
  let architecture_id := inGet input "architecture_id" (vstr "")
  let rpo_hours := inGet input "rpo_hours" (vstr "")
  let rto_hours := inGet input "rto_hours" (vstr "")
  let project_id := inGet input "project_id" (vstr "")
  let timestamp := inGet input "timestamp" (vstr st.nowIso)
  if !architecture_id.truthy then (.error "Architecture ID is required", st)
  else if !project_id.truthy then (.error "Project ID is required", st)
  else
    match requiredFetch st (pyStr project_id) "cloud_architect" "cloud_architecture"
        (pyStr architecture_id) (pyStr timestamp) "cloud_architecture" "requirement"
        "Failed to load cloud architecture: " with
    | .error e => (.error e, st)
    | .ok (_cloud_architecture, _requirement) =>
      let response := ask_llm st
      let dr_strategy := getValD response "content" (vstr "")
      let (dr_id, st) := freshUuid st
      let (art, st) := agentUpload st
        [("project_id", project_id), ("architecture_id", architecture_id),
         ("rpo_hours", rpo_hours), ("rto_hours", rto_hours),
         ("dr_strategy", dr_strategy), ("created_at", timestamp)]
        (pyStr project_id) "cloud_architect" "disaster_recovery" dr_id (pyStr timestamp)
      let s3_key := art.s3_key
      let st := addToMemory st (vobj [("type", vstr "disaster_recovery"),
        ("id", vstr dr_id), ("project_id", project_id),
        ("architecture_id", architecture_id), ("rpo_hours", rpo_hours),
        ("rto_hours", rto_hours), ("s3_key", vstr s3_key),
        ("timestamp", timestamp)])
      let st := setStateLabel st "disaster_recovery_designed"
      let st := save_state st
      (.ok (vobj [("status", vstr "success"), ("project_id", project_id),
        ("architecture_id", architecture_id), ("dr_id", vstr dr_id),
        ("dr_strategy", dr_strategy), ("s3_key", vstr s3_key)]), st)

/-- cloud-architect/index.py lines 605-730, `analyze_cfn_failure`. -/
def analyze_cfn_failure (st : AgentSt) (input : Input) : Except String Val × AgentSt :=
  let stack_id := inGet input "stackId" (vstr "")
  let stack_name := inGet input "stackName" (vstr "")
  let logical_resource_id := inGet input "logicalResourceId" (vstr "")
  let resource_type := inGet input "resourceType" (vstr "")
  let status_reason := inGet input "statusReason" (vstr "")
  let template_info := inGet input "templateInfo" (vobj [])
  let failure_events := inGet input "failureEvents" (varr [])
  let project_id := inGet input "project_id" stack_id
  let timestamp := inGet input "timestamp" (vstr st.nowIso)
  if !stack_id.truthy then (.error "Stack ID is required", st)
  else if !stack_name.truthy then (.error "Stack Name is required", st)
  else
    let _ := (logical_resource_id, resource_type, status_reason, template_info)
    let response := ask_llm st
    let analysis := getValD response "content" (vstr "")
    let (analysis_id, st) := freshUuid st
    let (art, st) := agentUpload st
      [("stack_id", stack_id), ("stack_name", stack_name),
       ("logical_resource_id", logical_resource_id),
       ("resource_type", resource_type), ("status_reason", status_reason),
       ("failure_events", failure_events), ("analysis", analysis),
       ("created_at", timestamp)]
      (pyStr project_id) "cloud_architect" "cfn_failure_analysis" analysis_id
      (pyStr timestamp)
    let s3_key := art.s3_key
    let st := addToMemory st (vobj [("type", vstr "cfn_failure_analysis"),
      ("id", vstr analysis_id), ("stack_id", stack_id),
      ("stack_name", stack_name), ("s3_key", vstr s3_key),
      ("timestamp", timestamp)])
    let st := setStateLabel st "cfn_failure_analyzed"
    let st := save_state st
    let st := emit_event st "CfnFailureAnalysisCompleted"
      [("stack_id", stack_id), ("stack_name", stack_name),
       ("analysis_id", vstr analysis_id), ("s3_key", vstr s3_key)]
    (.ok (vobj [("status", vstr "success"), ("stack_id", stack_id),
      ("stack_name", stack_name), ("analysis_id", vstr analysis_id),
      ("analysis", analysis), ("s3_key", vstr s3_key)]), st)

/-! ### AWS: Serverless Architect agent
Embeds `src/lambda/action_group/aws/serverless-architect/index.py`. -/

/-- serverless-architect/index.py lines 82-174,
`design_serverless_architecture`. -/
def design_serverless_architecture (st : AgentSt) (input : Input) :
    Except String Val × AgentSt :=
  let requirement := inGet input "requirement" (vstr "")
  let application_type := inGet input "application_type" (vstr "")
  let (u1, st) := freshUuid st
  let project_id := inGet input "project_id" (vstr u1)
  let timestamp := inGet input "timestamp" (vstr st.nowIso)
  if !requirement.truthy then (.error "Requirement is required", st)
  else
    let response := ask_llm st
    let serverless_architecture := getValD response "content" (vstr "")
    let (architecture_id, st) := freshUuid st
    let (art, st) := agentUpload st
      [("project_id", project_id), ("requirement", requirement),
       ("application_type", application_type),
       ("serverless_architecture", serverless_architecture),
       ("created_at", timestamp)]
      (pyStr project_id) "serverless_architect" "serverless_architecture"
      architecture_id (pyStr timestamp)
    let s3_key := art.s3_key
    let st := addToMemory st (vobj [("type", vstr "serverless_architecture"),
      ("id", vstr architecture_id), ("project_id", project_id),
      ("s3_key", vstr s3_key), ("requirement", requirement),
      ("application_type", application_type), ("timestamp", timestamp)])
    let st := setStateLabel st "serverless_architecture_created"
    let st := save_state st
    let st := emit_event st "ServerlessArchitectureCreated"
      [("project_id", project_id), ("architecture_id", vstr architecture_id),
       ("requirement", requirement), ("application_type", application_type),
       ("s3_key", vstr s3_key)]
    (.ok (vobj [("status", vstr "success"), ("project_id", project_id),
      ("architecture_id", vstr architecture_id),
      ("serverless_architecture", serverless_architecture),
      ("s3_key", vstr s3_key)]), st)

/-- serverless-architect/index.py lines 176-268,
`design_event_driven_architecture`. -/
def design_event_driven_architecture (st : AgentSt) (input : Input) :
    Except String Val × AgentSt :=
  let requirement := inGet input "requirement" (vstr "")
  let event_sources := inGet input "event_sources" (vstr "")
  let (u1, st) := freshUuid st
  let project_id := inGet input "project_id" (vstr u1)
  let timestamp := inGet input "timestamp" (vstr st.nowIso)
  if !requirement.truthy then (.error "Requirement is required", st)
  else
    let response := ask_llm st
    let event_architecture := getValD response "content" (vstr "")
    let (architecture_id, st) := freshUuid st
    let (art, st) := agentUpload st
      [("project_id", project_id), ("requirement", requirement),
       ("event_sources", event_sources),
       ("event_architecture", event_architecture), ("created_at", timestamp)]
      (pyStr project_id) "serverless_architect" "event_architecture"
      architecture_id (pyStr timestamp)
    let s3_key := art.s3_key
    let st := addToMemory st (vobj [("type", vstr "event_architecture"),
      ("id", vstr architecture_id), ("project_id", project_id),
      ("s3_key", vstr s3_key), ("requirement", requirement),
      ("event_sources", event_sources), ("timestamp", timestamp)])
    let st := setStateLabel st "event_architecture_created"
    let st := save_state st
    let st := emit_event st "EventDrivenArchitectureCreated"
      [("project_id", project_id), ("architecture_id", vstr architecture_id),
       ("requirement", requirement), ("event_sources", event_sources),
       ("s3_key", vstr s3_key)]
    (.ok (vobj [("status", vstr "success"), ("project_id", project_id),
      ("architecture_id", vstr architecture_id),
      ("event_architecture", event_architecture), ("s3_key", vstr s3_key)]), st)

/-- serverless-architect/index.py lines 270-366, `design_api_gateway`. -/
def design_api_gateway (st : AgentSt) (input : Input) : Except String Val × AgentSt :=
  let requirement := inGet input "requirement" (vstr "")
  let api_type := inGet input "api_type" (vstr "rest")
  let authentication_type := inGet input "authentication_type" (vstr "")
  let (u1, st) := freshUuid st
  let project_id := inGet input "project_id" (vstr u1)
  let timestamp := inGet input "timestamp" (vstr st.nowIso)
  if !requirement.truthy then (.error "Requirement is required", st)
  else
    let response := ask_llm st
    let api_design := getValD response "content" (vstr "")
    let (api_id, st) := freshUuid st
    let (art, st) := agentUpload st
      [("project_id", project_id), ("requirement", requirement),
       ("api_type", api_type), ("authentication_type", authentication_type),
       ("api_design", api_design), ("created_at", timestamp)]
      (pyStr project_id) "serverless_architect" "api_design" api_id (pyStr timestamp)
    let s3_key := art.s3_key
    let st := addToMemory st (vobj [("type", vstr "api_design"),
      ("id", vstr api_id), ("project_id", project_id),
      ("s3_key", vstr s3_key), ("requirement", requirement),
      ("api_type", api_type), ("authentication_type", authentication_type),
      ("timestamp", timestamp)])
    let st := setStateLabel st "api_design_created"
    let st := save_state st
    let st := emit_event st "ApiGatewayDesignCreated"
      [("project_id", project_id), ("api_id", vstr api_id),
       ("requirement", requirement), ("api_type", api_type),
       ("authentication_type", authentication_type), ("s3_key", vstr s3_key)]
    (.ok (vobj [("status", vstr "success"), ("project_id", project_id),
      ("api_id", vstr api_id), ("api_design", api_design),
      ("s3_key", vstr s3_key)]), st)

/-- serverless-architect/index.py lines 368-455, `optimize_lambda_functions`. -/
def optimize_lambda_functions (st : AgentSt) (input : Input) :
    Except String Val × AgentSt :=
  let function_code := inGet input "function_code" (vstr "")
  let runtime := inGet input "runtime" (vstr "")
  let optimization_focus := inGet input "optimization_focus" (vstr "all")
  let (u1, st) := freshUuid st
  let project_id := inGet input "project_id" (vstr u1)
  let timestamp := inGet input "timestamp" (vstr st.nowIso)
  if !function_code.truthy then (.error "Function code is required", st)
  else if !runtime.truthy then (.error "Runtime is required", st)
  else
    let response := ask_llm st
    let optimization := getValD response "content" (vstr "")
    let (optimization_id, st) := freshUuid st
    let (art, st) := agentUpload st
      [("project_id", project_id), ("function_code", function_code),
       ("runtime", runtime), ("optimization_focus", optimization_focus),
       ("optimization", optimization), ("created_at", timestamp)]
      (pyStr project_id) "serverless_architect" "lambda_optimization"
      optimization_id (pyStr timestamp)
    let s3_key := art.s3_key
    let st := addToMemory st (vobj [("type", vstr "lambda_optimization"),
      ("id", vstr optimization_id), ("project_id", project_id),
      ("s3_key", vstr s3_key), ("runtime", runtime),
      ("optimization_focus", optimization_focus), ("timestamp", timestamp)])
    let st := setStateLabel st "lambda_optimization_created"
    let st := save_state st
    (.ok (vobj [("status", vstr "success"), ("project_id", project_id),
      ("optimization_id", vstr optimization_id),
      ("optimization", optimization), ("s3_key", vstr s3_key)]), st)

/-- serverless-architect/index.py lines 457-550,
`design_step_functions_workflow`. -/
def design_step_functions_workflow (st : AgentSt) (input : Input) :
    Except String Val × AgentSt :=
  let requirement := inGet input "requirement" (vstr "")
  let workflow_type := inGet input "workflow_type" (vstr "standard")
  let integration_services := inGet input "integration_services" (vstr "")
  let (u1, st) := freshUuid st
  let project_id := inGet input "project_id" (vstr u1)
  let timestamp := inGet input "timestamp" (vstr st.nowIso)
  if !requirement.truthy then (.error "Requirement is required", st)
  else
    let response := ask_llm st
    let workflow := getValD response "content" (vstr "")
    let (workflow_id, st) := freshUuid st
    let (art, st) := agentUpload st
      [("project_id", project_id), ("requirement", requirement),
       ("workflow_type", workflow_type),
       ("integration_services", integration_services),
       ("workflow", workflow), ("created_at", timestamp)]
      (pyStr project_id) "serverless_architect" "step_functions_workflow"
      workflow_id (pyStr timestamp)
    let s3_key := art.s3_key
    let st := addToMemory st (vobj [("type", vstr "step_functions_workflow"),
      ("id", vstr workflow_id), ("project_id", project_id),
      ("s3_key", vstr s3_key), ("requirement", requirement),
      ("workflow_type", workflow_type),
      ("integration_services", integration_services),
      ("timestamp", timestamp)])
    let st := setStateLabel st "step_functions_workflow_created"
    let st := save_state st
    let st := emit_event st "StepFunctionsWorkflowCreated"
      [("project_id", project_id), ("workflow_id", vstr workflow_id),
       ("requirement", requirement), ("workflow_type", workflow_type),
       ("s3_key", vstr s3_key)]
    (.ok (vobj [("status", vstr "success"), ("project_id", project_id),
      ("workflow_id", vstr workflow_id), ("workflow", workflow),
      ("s3_key", vstr s3_key)]), st)

/-! ### Process dispatchers
Each agent's `process` method reads `process_type` (with an agent-specific
default), dispatches on it, and — in every agent except the Architect —
wraps the dispatch in `try/except` that converts any raised exception into
a `\x7bstatus: failed, error: str(e)\x7d` return value.  The Architect's
`process` (bizdev/architect/index.py lines 47-71) has no such handler, so
its `ValueError` propagates to the caller. -/

/-- The `except Exception as e: return \x7b"status": "failed", "error": str(e)\x7d`
wrapper shared by seven of the eight agents. -/
def pyCatch (r : Except String Val × AgentSt) : Except String Val × AgentSt :=
  match r with
  | (.error e, st) => (.ok (vobj [("status", vstr "failed"), ("error", vstr e)]), st)
  | ok => ok

/-- bizdev/product-manager/index.py lines 47-78, `ProductManager.process`. -/
def productManagerProcess (st : AgentSt) (input : Input) : Except String Val × AgentSt :=
  let process_type := inGet input "process_type" (vstr "analyze_requirement")
  pyCatch (match process_type with
    | vstr s =>
      if s = "analyze_requirement" then analyze_requirement st input
      else if s = "create_user_stories" then create_user_stories st input
      else if s = "create_competitive_analysis" then create_competitive_analysis st input
      else if s = "create_product_requirement_doc" then
        create_product_requirement_doc st input
      else (.error ("Unknown process type: " ++ s), st)
    | other => (.error ("Unknown process type: " ++ pyStr other), st))

/-- bizdev/architect/index.py lines 47-71, `Architect.process`: the only
`process` with no `try/except`, so the `ValueError` escapes. -/
def architectProcess (st : AgentSt) (input : Input) : Except String Val × AgentSt :=
  let process_type := inGet input "process_type" (vstr "create_architecture")
  match process_type with
  | vstr s =>
    if s = "create_architecture" then create_architecture st input
    else if s = "create_class_diagram" then create_class_diagram st input
    else if s = "create_sequence_diagram" then create_sequence_diagram st input
    else if s = "create_api_design" then create_api_design st input
    else (.error ("Unknown process type: " ++ s), st)
  | other => (.error ("Unknown process type: " ++ pyStr other), st)

/-- bizdev/engineer/index.py lines 49-78, `Engineer.process`. -/
def engineerProcess (st : AgentSt) (input : Input) : Except String Val × AgentSt :=
  let process_type := inGet input "process_type" (vstr "implement_code")
  pyCatch (match process_type with
    | vstr s =>
      if s = "implement_code" then implement_code st input
      else if s = "review_code" then review_code st input
      else if s = "fix_bugs" then fix_bugs st input
      else (.error ("Unknown process type: " ++ s), st)
    | other => (.error ("Unknown process type: " ++ pyStr other), st))

/-- aws/cloud-architect/index.py lines 47-82, `CloudArchitect.process`. -/
def cloudArchitectProcess (st : AgentSt) (input : Input) : Except String Val × AgentSt :=
  let process_type := inGet input "process_type" (vstr "design_cloud_architecture")
  pyCatch (match process_type with
    | vstr s =>
      if s = "design_cloud_architecture" then design_cloud_architecture st input
      else if s = "evaluate_architecture" then evaluate_architecture st input
      else if s = "create_infrastructure_diagram" then
        create_infrastructure_diagram st input
      else if s = "optimize_cost" then optimize_cost st input
      else if s = "design_disaster_recovery" then design_disaster_recovery st input
      else if s = "analyze_cfn_failure" then analyze_cfn_failure st input
      else (.error ("Unknown process type: " ++ s), st)
    | other => (.error ("Unknown process type: " ++ pyStr other), st))

/-- aws/serverless-architect/index.py lines 47-80,
`ServerlessArchitect.process`. -/
def serverlessArchitectProcess (st : AgentSt) (input : Input) :
    Except String Val × AgentSt :=
  let process_type := inGet input "process_type" (vstr "design_serverless_architecture")
  pyCatch (match process_type with
    | vstr s =>
      if s = "design_serverless_architecture" then
        design_serverless_architecture st input
      else if s = "design_event_driven_architecture" then
        design_event_driven_architecture st input
      else if s = "design_api_gateway" then design_api_gateway st input
      else if s = "optimize_lambda_functions" then optimize_lambda_functions st input
      else if s = "design_step_functions_workflow" then
        design_step_functions_workflow st input
      else (.error ("Unknown process type: " ++ s), st)
    | other => (.error ("Unknown process type: " ++ pyStr other), st))

/-- materials/property_target/index.py lines 47-74,
`PropertyTargetAgent.process`. -/
def propertyTargetProcess (st : AgentSt) (input : Input) : Except String Val × AgentSt :=
  let process_type := inGet input "process_type" (vstr "set_target_properties")
  pyCatch (match process_type with
    | vstr s =>
      if s = "set_target_properties" then set_target_properties st input
      else if s = "analyze_tradeoffs" then analyze_tradeoffs st input
      else if s = "validate_targets" then validate_targets st input
      else (.error ("Unknown process type: " ++ s), st)
    | other => (.error ("Unknown process type: " ++ pyStr other), st))

/-- materials/inverse_design/index.py lines 47-74,
`InverseDesignAgent.process`. -/
def inverseDesignProcess (st : AgentSt) (input : Input) : Except String Val × AgentSt :=
  let process_type := inGet input "process_type" (vstr "design_materials")
  pyCatch (match process_type with
    | vstr s =>
      if s = "design_materials" then design_materials st input
      else if s = "rank_candidates" then rank_candidates st input
      else if s = "evaluate_feasibility" then evaluate_feasibility st input
      else (.error ("Unknown process type: " ++ s), st)
    | other => (.error ("Unknown process type: " ++ pyStr other), st))

/-- materials/experiment_planning/index.py lines 47-74,
`ExperimentPlanningAgent.process`. -/
def experimentPlanningProcess (st : AgentSt) (input : Input) :
    Except String Val × AgentSt :=
  let process_type := inGet input "process_type" (vstr "create_experiment_plan")
  pyCatch (match process_type with
    | vstr s =>
      if s = "create_experiment_plan" then create_experiment_plan st input
      else if s = "optimize_conditions" then optimize_conditions st input
      else if s = "estimate_resources" then estimate_resources st input
      else (.error ("Unknown process type: " ++ s), st)
    | other => (.error ("Unknown process type: " ++ pyStr other), st))

/-! ### The operation table (spec §4) -/

/-- The 31 documented domain-agent operations of spec §4. -/
inductive OpId where
  | analyze_requirement | create_user_stories | create_competitive_analysis
  | create_product_requirement_doc
  | create_architecture | create_class_diagram | create_sequence_diagram
  | create_api_design
  | implement_code | review_code | fix_bugs
  | design_cloud_architecture | evaluate_architecture
  | create_infrastructure_diagram | optimize_cost | design_disaster_recovery
  | analyze_cfn_failure
  | design_serverless_architecture | design_event_driven_architecture
  | design_api_gateway | optimize_lambda_functions
  | design_step_functions_workflow
  | set_target_properties | analyze_tradeoffs | validate_targets
  | design_materials | rank_candidates | evaluate_feasibility
  | create_experiment_plan | optimize_conditions | estimate_resources
deriving DecidableEq, Repr

/-- Run one operation (the method itself, before any `process`-level
exception handler). -/
def runOp : OpId → AgentSt → Input → Except String Val × AgentSt
  | .analyze_requirement => analyze_requirement
  | .create_user_stories => create_user_stories
  | .create_competitive_analysis => create_competitive_analysis
  | .create_product_requirement_doc => create_product_requirement_doc
  | .create_architecture => create_architecture
  | .create_class_diagram => create_class_diagram
  | .create_sequence_diagram => create_sequence_diagram
  | .create_api_design => create_api_design
  | .implement_code => implement_code
  | .review_code => review_code
  | .fix_bugs => fix_bugs
  | .design_cloud_architecture => design_cloud_architecture
  | .evaluate_architecture => evaluate_architecture
  | .create_infrastructure_diagram => create_infrastructure_diagram
  | .optimize_cost => optimize_cost
  | .design_disaster_recovery => design_disaster_recovery
  | .analyze_cfn_failure => analyze_cfn_failure
  | .design_serverless_architecture => design_serverless_architecture
  | .design_event_driven_architecture => design_event_driven_architecture
  | .design_api_gateway => design_api_gateway
  | .optimize_lambda_functions => optimize_lambda_functions
  | .design_step_functions_workflow => design_step_functions_workflow
  | .set_target_properties => set_target_properties
  | .analyze_tradeoffs => analyze_tradeoffs
  | .validate_targets => validate_targets
  | .design_materials => design_materials
  | .rank_candidates => rank_candidates
  | .evaluate_feasibility => evaluate_feasibility
  | .create_experiment_plan => create_experiment_plan
  | .optimize_conditions => optimize_conditions
  | .estimate_resources => estimate_resources

/-- The fields marked "required" in §4's operation tables, in the order
the operation checks them. -/
def requiredFields : OpId → List String
  | .analyze_requirement => ["requirement"]
  | .create_user_stories => ["requirement"]
  | .create_competitive_analysis => ["requirement"]
  | .create_product_requirement_doc => ["requirement"]
  | .create_architecture => ["requirement"]
  | .create_class_diagram => ["architecture_id", "project_id"]
  | .create_sequence_diagram => ["architecture_id", "use_case", "project_id"]
  | .create_api_design => ["architecture_id", "project_id"]
  | .implement_code => ["requirement"]
  | .review_code => ["implementation_id", "project_id"]
  | .fix_bugs => ["implementation_id", "project_id"]
  | .design_cloud_architecture => ["requirement"]
  | .evaluate_architecture => ["architecture_id", "project_id"]
  | .create_infrastructure_diagram => ["architecture_id", "project_id"]
  | .optimize_cost => ["architecture_id", "project_id"]
  | .design_disaster_recovery => ["architecture_id", "project_id"]
  | .analyze_cfn_failure => ["stackId", "stackName"]
  | .design_serverless_architecture => ["requirement"]
  | .design_event_driven_architecture => ["requirement"]
  | .design_api_gateway => ["requirement"]
  | .optimize_lambda_functions => ["function_code", "runtime"]
  | .design_step_functions_workflow => ["requirement"]
  | .set_target_properties => ["requirements"]
  | .analyze_tradeoffs => ["target_properties"]
  | .validate_targets => ["target_properties"]
  | .design_materials => ["target_properties"]
  | .rank_candidates => ["candidate_materials"]
  | .evaluate_feasibility => ["material"]
  | .create_experiment_plan => ["materials", "target_properties"]
  | .optimize_conditions => ["experiment"]
  | .estimate_resources => ["experiment_plan"]

/-- The field-naming validation message each required field produces. -/
def requiredMsg : String → String
  | "requirement" => "Requirement is required"
  | "architecture_id" => "Architecture ID is required"
  | "project_id" => "Project ID is required"
  | "use_case" => "Use case is required"
  | "implementation_id" => "Implementation ID is required"
  | "stackId" => "Stack ID is required"
  | "stackName" => "Stack Name is required"
  | "function_code" => "Function code is required"
  | "runtime" => "Runtime is required"
  | "requirements" => "Requirements are required"
  | "target_properties" => "Target properties are required"
  | "candidate_materials" => "Candidate materials are required"
  | "material" => "Material is required"
  | "materials" => "Materials are required"
  | "experiment" => "Experiment is required"
  | "experiment_plan" => "Experiment plan is required"
  | f => f ++ " is required"

/-- A field is supplied when the input holds a truthy value for it (every
required field's `.get` default is falsy, so the operation's validation
test is exactly `¬ fieldSupplied`). -/
def fieldSupplied (input : Input) (f : String) : Bool :=
  match getKey input f with
  | some v => v.truthy
  | none => false

/-- No artifact write, no state record, no memory append, no state-label
change, no event, no message: every component of the world except the
ambient uuid stream is unchanged. -/
def noSideEffects (st st' : AgentSt) : Prop :=
  st'.fields = st.fields ∧ st'.s3 = st.s3 ∧ st'.stateRecs = st.stateRecs ∧
  st'.events = st.events ∧ st'.queue = st.queue ∧ st'.uploads = st.uploads

lemma inGet_eq_of_none {input : Input} {f : String} {dflt : Val}
    (h : getKey input f = none) : inGet input f dflt = dflt := by
  unfold inGet getKeyD; rw [h]; rfl

lemma inGet_truthy_iff {input : Input} {f : String} {dflt : Val}
    (hd : dflt.truthy = false) :
    (inGet input f dflt).truthy = fieldSupplied input f := by
  unfold inGet getKeyD fieldSupplied
  cases h : getKey input f <;> simp [h, hd]

/-- C3.  Required-field validation is atomic: for every documented
operation of spec §4 and every input that omits a field marked required
for it (while supplying the operation's other required fields), the
operation raises an invalid-input failure whose message names the
missing field, and no artifact is written, no state record persisted,
no memory record appended, and no event or message emitted. -/
theorem C3_required_field_validation (op : OpId) (st : AgentSt) (input : Input)
    (f : String) (hf : f ∈ requiredFields op) (homit : getKey input f = none)
    (hothers : ∀ g ∈ requiredFields op, g ≠ f → fieldSupplied input g = true) :
    (runOp op st input).1 = .error (requiredMsg f) ∧
    noSideEffects st (runOp op st input).2 := by
  cases op with
  | analyze_requirement =>
    simp only [requiredFields, List.mem_singleton] at hf
    subst hf
    have hsup : (inGet input "requirement" (vstr "")).truthy = false := by
      rw [inGet_eq_of_none homit]; rfl
    simp only [runOp, analyze_requirement, hsup, Bool.not_true, Bool.not_false,
      if_false, if_true, noSideEffects]
    exact ⟨by trivial, by trivial, by trivial, by trivial, by trivial, by trivial, by trivial⟩
  | create_user_stories =>
    simp only [requiredFields, List.mem_singleton] at hf
    subst hf
    have hsup : (inGet input "requirement" (vstr "")).truthy = false := by
      rw [inGet_eq_of_none homit]; rfl
    simp only [runOp, create_user_stories, hsup, Bool.not_true, Bool.not_false,
      if_false, if_true, noSideEffects]
    exact ⟨by trivial, by trivial, by trivial, by trivial, by trivial, by trivial, by trivial⟩
  | create_competitive_analysis =>
    simp only [requiredFields, List.mem_singleton] at hf
    subst hf
    have hsup : (inGet input "requirement" (vstr "")).truthy = false := by
      rw [inGet_eq_of_none homit]; rfl
    simp only [runOp, create_competitive_analysis, hsup, Bool.not_true, Bool.not_false,
      if_false, if_true, noSideEffects]
    exact ⟨by trivial, by trivial, by trivial, by trivial, by trivial, by trivial, by trivial⟩
  | create_product_requirement_doc =>
    simp only [requiredFields, List.mem_singleton] at hf
    subst hf
    have hsup : (inGet input "requirement" (vstr "")).truthy = false := by
      rw [inGet_eq_of_none homit]; rfl
    simp only [runOp, create_product_requirement_doc, hsup, Bool.not_true, Bool.not_false,
      if_false, if_true, noSideEffects]
    exact ⟨by trivial, by trivial, by trivial, by trivial, by trivial, by trivial, by trivial⟩
  | create_architecture =>
    simp only [requiredFields, List.mem_singleton] at hf
    subst hf
    have hsup : (inGet input "requirement" (vstr "")).truthy = false := by
      rw [inGet_eq_of_none homit]; rfl
    simp only [runOp, create_architecture, hsup, Bool.not_true, Bool.not_false,
      if_false, if_true, noSideEffects]
    exact ⟨by trivial, by trivial, by trivial, by trivial, by trivial, by trivial, by trivial⟩
  | create_class_diagram =>
    simp only [requiredFields, List.mem_cons, List.mem_singleton,
      List.not_mem_nil, or_false] at hf
    rcases hf with rfl | rfl
    · have hsup : (inGet input "architecture_id" (vstr "")).truthy = false := by
        rw [inGet_eq_of_none homit]; rfl
      simp only [runOp, create_class_diagram, hsup, Bool.not_true, Bool.not_false,
        if_false, if_true, noSideEffects]
      exact ⟨by trivial, by trivial, by trivial, by trivial, by trivial, by trivial, by trivial⟩
    · have h1 : (inGet input "architecture_id" (vstr "")).truthy = true := by
        rw [inGet_truthy_iff (show (vstr "").truthy = false from rfl)]
        exact hothers "architecture_id" (by simp [requiredFields]) (by decide)
      have hsup : (inGet input "project_id" (vstr "")).truthy = false := by
        rw [inGet_eq_of_none homit]; rfl
      simp only [runOp, create_class_diagram, h1, hsup, Bool.not_true, Bool.not_false,
        if_false, if_true, noSideEffects]
      exact ⟨by trivial, by trivial, by trivial, by trivial, by trivial, by trivial, by trivial⟩
  | create_sequence_diagram =>
    simp only [requiredFields, List.mem_cons, List.mem_singleton,
      List.not_mem_nil, or_false] at hf
    rcases hf with rfl | rfl | rfl
    · have hsup : (inGet input "architecture_id" (vstr "")).truthy = false := by
        rw [inGet_eq_of_none homit]; rfl
      simp only [runOp, create_sequence_diagram, hsup, Bool.not_true, Bool.not_false,
        if_false, if_true, noSideEffects]
      exact ⟨by trivial, by trivial, by trivial, by trivial, by trivial, by trivial, by trivial⟩
    · have h1 : (inGet input "architecture_id" (vstr "")).truthy = true := by
        rw [inGet_truthy_iff (show (vstr "").truthy = false from rfl)]
        exact hothers "architecture_id" (by simp [requiredFields]) (by decide)
      have hsup : (inGet input "use_case" (vstr "")).truthy = false := by
        rw [inGet_eq_of_none homit]; rfl
      simp only [runOp, create_sequence_diagram, h1, hsup, Bool.not_true, Bool.not_false,
        if_false, if_true, noSideEffects]
      exact ⟨by trivial, by trivial, by trivial, by trivial, by trivial, by trivial, by trivial⟩
    · have h1 : (inGet input "architecture_id" (vstr "")).truthy = true := by
        rw [inGet_truthy_iff (show (vstr "").truthy = false from rfl)]
        exact hothers "architecture_id" (by simp [requiredFields]) (by decide)
      have h2 : (inGet input "use_case" (vstr "")).truthy = true := by
        rw [inGet_truthy_iff (show (vstr "").truthy = false from rfl)]
        exact hothers "use_case" (by simp [requiredFields]) (by decide)
      have hsup : (inGet input "project_id" (vstr "")).truthy = false := by
        rw [inGet_eq_of_none homit]; rfl
      simp only [runOp, create_sequence_diagram, h1, h2, hsup, Bool.not_true, Bool.not_false,
        if_false, if_true, noSideEffects]
      exact ⟨by trivial, by trivial, by trivial, by trivial, by trivial, by trivial, by trivial⟩
  | create_api_design =>
    simp only [requiredFields, List.mem_cons, List.mem_singleton,
      List.not_mem_nil, or_false] at hf
    rcases hf with rfl | rfl
    · have hsup : (inGet input "architecture_id" (vstr "")).truthy = false := by
        rw [inGet_eq_of_none homit]; rfl
      simp only [runOp, create_api_design, hsup, Bool.not_true, Bool.not_false,
        if_false, if_true, noSideEffects]
      exact ⟨by trivial, by trivial, by trivial, by trivial, by trivial, by trivial, by trivial⟩
    · have h1 : (inGet input "architecture_id" (vstr "")).truthy = true := by
        rw [inGet_truthy_iff (show (vstr "").truthy = false from rfl)]
        exact hothers "architecture_id" (by simp [requiredFields]) (by decide)
      have hsup : (inGet input "project_id" (vstr "")).truthy = false := by
        rw [inGet_eq_of_none homit]; rfl
      simp only [runOp, create_api_design, h1, hsup, Bool.not_true, Bool.not_false,
        if_false, if_true, noSideEffects]
      exact ⟨by trivial, by trivial, by trivial, by trivial, by trivial, by trivial, by trivial⟩
  | implement_code =>
    simp only [requiredFields, List.mem_singleton] at hf
    subst hf
    have hsup : (inGet input "requirement" (vstr "")).truthy = false := by
      rw [inGet_eq_of_none homit]; rfl
    simp only [runOp, implement_code, hsup, Bool.not_true, Bool.not_false,
      if_false, if_true, noSideEffects]
    exact ⟨by trivial, by trivial, by trivial, by trivial, by trivial, by trivial, by trivial⟩
  | review_code =>
    simp only [requiredFields, List.mem_cons, List.mem_singleton,
      List.not_mem_nil, or_false] at hf
    rcases hf with rfl | rfl
    · have hsup : (inGet input "implementation_id" (vstr "")).truthy = false := by
        rw [inGet_eq_of_none homit]; rfl
      simp only [runOp, review_code, hsup, Bool.not_true, Bool.not_false,
        if_false, if_true, noSideEffects]
      exact ⟨by trivial, by trivial, by trivial, by trivial, by trivial, by trivial, by trivial⟩
    · have h1 : (inGet input "implementation_id" (vstr "")).truthy = true := by
        rw [inGet_truthy_iff (show (vstr "").truthy = false from rfl)]
        exact hothers "implementation_id" (by simp [requiredFields]) (by decide)
      have hsup : (inGet input "project_id" (vstr "")).truthy = false := by
        rw [inGet_eq_of_none homit]; rfl
      simp only [runOp, review_code, h1, hsup, Bool.not_true, Bool.not_false,
        if_false, if_true, noSideEffects]
      exact ⟨by trivial, by trivial, by trivial, by trivial, by trivial, by trivial, by trivial⟩
  | fix_bugs =>
    simp only [requiredFields, List.mem_cons, List.mem_singleton,
      List.not_mem_nil, or_false] at hf
    rcases hf with rfl | rfl
    · have hsup : (inGet input "implementation_id" (vstr "")).truthy = false := by
        rw [inGet_eq_of_none homit]; rfl
      simp only [runOp, fix_bugs, hsup, Bool.not_true, Bool.not_false,
        if_false, if_true, noSideEffects]
      exact ⟨by trivial, by trivial, by trivial, by trivial, by trivial, by trivial, by trivial⟩
    · have h1 : (inGet input "implementation_id" (vstr "")).truthy = true := by
        rw [inGet_truthy_iff (show (vstr "").truthy = false from rfl)]
        exact hothers "implementation_id" (by simp [requiredFields]) (by decide)
      have hsup : (inGet input "project_id" (vstr "")).truthy = false := by
        rw [inGet_eq_of_none homit]; rfl
      simp only [runOp, fix_bugs, h1, hsup, Bool.not_true, Bool.not_false,
        if_false, if_true, noSideEffects]
      exact ⟨by trivial, by trivial, by trivial, by trivial, by trivial, by trivial, by trivial⟩
  | design_cloud_architecture =>
    simp only [requiredFields, List.mem_singleton] at hf
    subst hf
    have hsup : (inGet input "requirement" (vstr "")).truthy = false := by
      rw [inGet_eq_of_none homit]; rfl
    simp only [runOp, design_cloud_architecture, hsup, Bool.not_true, Bool.not_false,
      if_false, if_true, noSideEffects]
    exact ⟨by trivial, by trivial, by trivial, by trivial, by trivial, by trivial, by trivial⟩
  | evaluate_architecture =>
    simp only [requiredFields, List.mem_cons, List.mem_singleton,
      List.not_mem_nil, or_false] at hf
    rcases hf with rfl | rfl
    · have hsup : (inGet input "architecture_id" (vstr "")).truthy = false := by
        rw [inGet_eq_of_none homit]; rfl
      simp only [runOp, evaluate_architecture, hsup, Bool.not_true, Bool.not_false,
        if_false, if_true, noSideEffects]
      exact ⟨by trivial, by trivial, by trivial, by trivial, by trivial, by trivial, by trivial⟩
    · have h1 : (inGet input "architecture_id" (vstr "")).truthy = true := by
        rw [inGet_truthy_iff (show (vstr "").truthy = false from rfl)]
        exact hothers "architecture_id" (by simp [requiredFields]) (by decide)
      have hsup : (inGet input "project_id" (vstr "")).truthy = false := by
        rw [inGet_eq_of_none homit]; rfl
      simp only [runOp, evaluate_architecture, h1, hsup, Bool.not_true, Bool.not_false,
        if_false, if_true, noSideEffects]
      exact ⟨by trivial, by trivial, by trivial, by trivial, by trivial, by trivial, by trivial⟩
  | create_infrastructure_diagram =>
    simp only [requiredFields, List.mem_cons, List.mem_singleton,
      List.not_mem_nil, or_false] at hf
    rcases hf with rfl | rfl
    · have hsup : (inGet input "architecture_id" (vstr "")).truthy = false := by
        rw [inGet_eq_of_none homit]; rfl
      simp only [runOp, create_infrastructure_diagram, hsup, Bool.not_true, Bool.not_false,
        if_false, if_true, noSideEffects]
      exact ⟨by trivial, by trivial, by trivial, by trivial, by trivial, by trivial, by trivial⟩
    · have h1 : (inGet input "architecture_id" (vstr "")).truthy = true := by
        rw [inGet_truthy_iff (show (vstr "").truthy = false from rfl)]
        exact hothers "architecture_id" (by simp [requiredFields]) (by decide)
      have hsup : (inGet input "project_id" (vstr "")).truthy = false := by
        rw [inGet_eq_of_none homit]; rfl
      simp only [runOp, create_infrastructure_diagram, h1, hsup, Bool.not_true, Bool.not_false,
        if_false, if_true, noSideEffects]
      exact ⟨by trivial, by trivial, by trivial, by trivial, by trivial, by trivial, by trivial⟩
  | optimize_cost =>
    simp only [requiredFields, List.mem_cons, List.mem_singleton,
      List.not_mem_nil, or_false] at hf
    rcases hf with rfl | rfl
    · have hsup : (inGet input "architecture_id" (vstr "")).truthy = false := by
        rw [inGet_eq_of_none homit]; rfl
      simp only [runOp, optimize_cost, hsup, Bool.not_true, Bool.not_false,
        if_false, if_true, noSideEffects]
      exact ⟨by trivial, by trivial, by trivial, by trivial, by trivial, by trivial, by trivial⟩
    · have h1 : (inGet input "architecture_id" (vstr "")).truthy = true := by
        rw [inGet_truthy_iff (show (vstr "").truthy = false from rfl)]
        exact hothers "architecture_id" (by simp [requiredFields]) (by decide)
      have hsup : (inGet input "project_id" (vstr "")).truthy = false := by
        rw [inGet_eq_of_none homit]; rfl
      simp only [runOp, optimize_cost, h1, hsup, Bool.not_true, Bool.not_false,
        if_false, if_true, noSideEffects]
      exact ⟨by trivial, by trivial, by trivial, by trivial, by trivial, by trivial, by trivial⟩
  | design_disaster_recovery =>
    simp only [requiredFields, List.mem_cons, List.mem_singleton,
      List.not_mem_nil, or_false] at hf
    rcases hf with rfl | rfl
    · have hsup : (inGet input "architecture_id" (vstr "")).truthy = false := by
        rw [inGet_eq_of_none homit]; rfl
      simp only [runOp, design_disaster_recovery, hsup, Bool.not_true, Bool.not_false,
        if_false, if_true, noSideEffects]
      exact ⟨by trivial, by trivial, by trivial, by trivial, by trivial, by trivial, by trivial⟩
    · have h1 : (inGet input "architecture_id" (vstr "")).truthy = true := by
        rw [inGet_truthy_iff (show (vstr "").truthy = false from rfl)]
        exact hothers "architecture_id" (by simp [requiredFields]) (by decide)
      have hsup : (inGet input "project_id" (vstr "")).truthy = false := by
        rw [inGet_eq_of_none homit]; rfl
      simp only [runOp, design_disaster_recovery, h1, hsup, Bool.not_true, Bool.not_false,
        if_false, if_true, noSideEffects]
      exact ⟨by trivial, by trivial, by trivial, by trivial, by trivial, by trivial, by trivial⟩
  | analyze_cfn_failure =>
    simp only [requiredFields, List.mem_cons, List.mem_singleton,
      List.not_mem_nil, or_false] at hf
    rcases hf with rfl | rfl
    · have hsup : (inGet input "stackId" (vstr "")).truthy = false := by
        rw [inGet_eq_of_none homit]; rfl
      simp only [runOp, analyze_cfn_failure, hsup, Bool.not_true, Bool.not_false,
        if_false, if_true, noSideEffects]
      exact ⟨by trivial, by trivial, by trivial, by trivial, by trivial, by trivial, by trivial⟩
    · have h1 : (inGet input "stackId" (vstr "")).truthy = true := by
        rw [inGet_truthy_iff (show (vstr "").truthy = false from rfl)]
        exact hothers "stackId" (by simp [requiredFields]) (by decide)
      have hsup : (inGet input "stackName" (vstr "")).truthy = false := by
        rw [inGet_eq_of_none homit]; rfl
      simp only [runOp, analyze_cfn_failure, h1, hsup, Bool.not_true, Bool.not_false,
        if_false, if_true, noSideEffects]
      exact ⟨by trivial, by trivial, by trivial, by trivial, by trivial, by trivial, by trivial⟩
  | design_serverless_architecture =>
    simp only [requiredFields, List.mem_singleton] at hf
    subst hf
    have hsup : (inGet input "requirement" (vstr "")).truthy = false := by
      rw [inGet_eq_of_none homit]; rfl
    simp only [runOp, design_serverless_architecture, hsup, Bool.not_true, Bool.not_false,
      if_false, if_true, noSideEffects]
    exact ⟨by trivial, by trivial, by trivial, by trivial, by trivial, by trivial, by trivial⟩
  | design_event_driven_architecture =>
    simp only [requiredFields, List.mem_singleton] at hf
    subst hf
    have hsup : (inGet input "requirement" (vstr "")).truthy = false := by
      rw [inGet_eq_of_none homit]; rfl
    simp only [runOp, design_event_driven_architecture, hsup, Bool.not_true, Bool.not_false,
      if_false, if_true, noSideEffects]
    exact ⟨by trivial, by trivial, by trivial, by trivial, by trivial, by trivial, by trivial⟩
  | design_api_gateway =>
    simp only [requiredFields, List.mem_singleton] at hf
    subst hf
    have hsup : (inGet input "requirement" (vstr "")).truthy = false := by
      rw [inGet_eq_of_none homit]; rfl
    simp only [runOp, design_api_gateway, hsup, Bool.not_true, Bool.not_false,
      if_false, if_true, noSideEffects]
    exact ⟨by trivial, by trivial, by trivial, by trivial, by trivial, by trivial, by trivial⟩
  | optimize_lambda_functions =>
    simp only [requiredFields, List.mem_cons, List.mem_singleton,
      List.not_mem_nil, or_false] at hf
    rcases hf with rfl | rfl
    · have hsup : (inGet input "function_code" (vstr "")).truthy = false := by
        rw [inGet_eq_of_none homit]; rfl
      simp only [runOp, optimize_lambda_functions, hsup, Bool.not_true, Bool.not_false,
        if_false, if_true, noSideEffects]
      exact ⟨by trivial, by trivial, by trivial, by trivial, by trivial, by trivial, by trivial⟩
    · have h1 : (inGet input "function_code" (vstr "")).truthy = true := by
        rw [inGet_truthy_iff (show (vstr "").truthy = false from rfl)]
        exact hothers "function_code" (by simp [requiredFields]) (by decide)
      have hsup : (inGet input "runtime" (vstr "")).truthy = false := by
        rw [inGet_eq_of_none homit]; rfl
      simp only [runOp, optimize_lambda_functions, h1, hsup, Bool.not_true, Bool.not_false,
        if_false, if_true, noSideEffects]
      exact ⟨by trivial, by trivial, by trivial, by trivial, by trivial, by trivial, by trivial⟩
  | design_step_functions_workflow =>
    simp only [requiredFields, List.mem_singleton] at hf
    subst hf
    have hsup : (inGet input "requirement" (vstr "")).truthy = false := by
      rw [inGet_eq_of_none homit]; rfl
    simp only [runOp, design_step_functions_workflow, hsup, Bool.not_true, Bool.not_false,
      if_false, if_true, noSideEffects]
    exact ⟨by trivial, by trivial, by trivial, by trivial, by trivial, by trivial, by trivial⟩
  | set_target_properties =>
    simp only [requiredFields, List.mem_singleton] at hf
    subst hf
    have hsup : (inGet input "requirements" (vstr "")).truthy = false := by
      rw [inGet_eq_of_none homit]; rfl
    simp only [runOp, set_target_properties, hsup, Bool.not_true, Bool.not_false,
      if_false, if_true, noSideEffects]
    exact ⟨by trivial, by trivial, by trivial, by trivial, by trivial, by trivial, by trivial⟩
  | analyze_tradeoffs =>
    simp only [requiredFields, List.mem_singleton] at hf
    subst hf
    have hsup : (inGet input "target_properties" (vobj [])).truthy = false := by
      rw [inGet_eq_of_none homit]; rfl
    simp only [runOp, analyze_tradeoffs, hsup, Bool.not_true, Bool.not_false,
      if_false, if_true, noSideEffects]
    exact ⟨by trivial, by trivial, by trivial, by trivial, by trivial, by trivial, by trivial⟩
  | validate_targets =>
    simp only [requiredFields, List.mem_singleton] at hf
    subst hf
    have hsup : (inGet input "target_properties" (vobj [])).truthy = false := by
      rw [inGet_eq_of_none homit]; rfl
    simp only [runOp, validate_targets, hsup, Bool.not_true, Bool.not_false,
      if_false, if_true, noSideEffects]
    exact ⟨by trivial, by trivial, by trivial, by trivial, by trivial, by trivial, by trivial⟩
  | design_materials =>
    simp only [requiredFields, List.mem_singleton] at hf
    subst hf
    have hsup : (inGet input "target_properties" (vobj [])).truthy = false := by
      rw [inGet_eq_of_none homit]; rfl
    simp only [runOp, design_materials, hsup, Bool.not_true, Bool.not_false,
      if_false, if_true, noSideEffects]
    exact ⟨by trivial, by trivial, by trivial, by trivial, by trivial, by trivial, by trivial⟩
  | rank_candidates =>
    simp only [requiredFields, List.mem_singleton] at hf
    subst hf
    have hsup : (inGet input "candidate_materials" (varr [])).truthy = false := by
      rw [inGet_eq_of_none homit]; rfl
    simp only [runOp, rank_candidates, hsup, Bool.not_true, Bool.not_false,
      if_false, if_true, noSideEffects]
    exact ⟨by trivial, by trivial, by trivial, by trivial, by trivial, by trivial, by trivial⟩
  | evaluate_feasibility =>
    simp only [requiredFields, List.mem_singleton] at hf
    subst hf
    have hsup : (inGet input "material" (vobj [])).truthy = false := by
      rw [inGet_eq_of_none homit]; rfl
    simp only [runOp, evaluate_feasibility, hsup, Bool.not_true, Bool.not_false,
      if_false, if_true, noSideEffects]
    exact ⟨by trivial, by trivial, by trivial, by trivial, by trivial, by trivial, by trivial⟩
  | create_experiment_plan =>
    simp only [requiredFields, List.mem_cons, List.mem_singleton,
      List.not_mem_nil, or_false] at hf
    rcases hf with rfl | rfl
    · have hsup : (inGet input "materials" (varr [])).truthy = false := by
        rw [inGet_eq_of_none homit]; rfl
      simp only [runOp, create_experiment_plan, hsup, Bool.not_true, Bool.not_false,
        if_false, if_true, noSideEffects]
      exact ⟨by trivial, by trivial, by trivial, by trivial, by trivial, by trivial, by trivial⟩
    · have h1 : (inGet input "materials" (varr [])).truthy = true := by
        rw [inGet_truthy_iff (show (varr []).truthy = false from rfl)]
        exact hothers "materials" (by simp [requiredFields]) (by decide)
      have hsup : (inGet input "target_properties" (vobj [])).truthy = false := by
        rw [inGet_eq_of_none homit]; rfl
      simp only [runOp, create_experiment_plan, h1, hsup, Bool.not_true, Bool.not_false,
        if_false, if_true, noSideEffects]
      exact ⟨by trivial, by trivial, by trivial, by trivial, by trivial, by trivial, by trivial⟩
  | optimize_conditions =>
    simp only [requiredFields, List.mem_singleton] at hf
    subst hf
    have hsup : (inGet input "experiment" (vobj [])).truthy = false := by
      rw [inGet_eq_of_none homit]; rfl
    simp only [runOp, optimize_conditions, hsup, Bool.not_true, Bool.not_false,
      if_false, if_true, noSideEffects]
    exact ⟨by trivial, by trivial, by trivial, by trivial, by trivial, by trivial, by trivial⟩
  | estimate_resources =>
    simp only [requiredFields, List.mem_singleton] at hf
    subst hf
    have hsup : (inGet input "experiment_plan" (vobj [])).truthy = false := by
      rw [inGet_eq_of_none homit]; rfl
    simp only [runOp, estimate_resources, hsup, Bool.not_true, Bool.not_false,
      if_false, if_true, noSideEffects]
    exact ⟨by trivial, by trivial, by trivial, by trivial, by trivial, by trivial, by trivial⟩

/-- C3 witness: `analyze_requirement` on an input supplying nothing at
all fails with the field-naming message and leaves the world untouched. -/
theorem C3_required_field_validation_witness :
    ("requirement" ∈ requiredFields .analyze_requirement ∧
      getKey ([] : Input) "requirement" = none ∧
      (∀ g ∈ requiredFields OpId.analyze_requirement, g ≠ "requirement" →
        fieldSupplied ([] : Input) g = true)) ∧
    ((runOp .analyze_requirement
        { fields := { agent_id := "pm-1", agent_type := "product_manager",
                      state := "init", memory := varr [], created_at := "t0" },
          s3 := [], stateRecs := [], events := [], queue := [], uploads := [],
          uuids := ["u-1", "u-2", "u-3"], llmContent := "LLM says hi",
          now := ⟨2023, 5, 15⟩, nowIso := "2023-05-15T10:30:45" } []).1 =
        .error (requiredMsg "requirement") ∧
      noSideEffects
        { fields := { agent_id := "pm-1", agent_type := "product_manager",
                      state := "init", memory := varr [], created_at := "t0" },
          s3 := [], stateRecs := [], events := [], queue := [], uploads := [],
          uuids := ["u-1", "u-2", "u-3"], llmContent := "LLM says hi",
          now := ⟨2023, 5, 15⟩, nowIso := "2023-05-15T10:30:45" }
        (runOp .analyze_requirement
          { fields := { agent_id := "pm-1", agent_type := "product_manager",
                        state := "init", memory := varr [], created_at := "t0" },
            s3 := [], stateRecs := [], events := [], queue := [], uploads := [],
            uuids := ["u-1", "u-2", "u-3"], llmContent := "LLM says hi",
            now := ⟨2023, 5, 15⟩, nowIso := "2023-05-15T10:30:45" } []).2) :=
  ⟨⟨by simp [requiredFields], rfl, by simp [requiredFields]⟩,
    C3_required_field_validation .analyze_requirement _ [] "requirement"
      (by simp [requiredFields]) rfl (by simp [requiredFields])⟩

/-! ### The eight agents' entry points -/

/-- The eight domain agents (three business-dev, two AWS, three
Materials). -/
inductive AgentKind where
  | productManager | architect | engineer | cloudArchitect | serverlessArchitect
  | propertyTarget | inverseDesign | experimentPlanning
deriving DecidableEq, Repr

/-- Each agent's `process` entry point. -/
def processOf : AgentKind → AgentSt → Input → Except String Val × AgentSt
  | .productManager => productManagerProcess
  | .architect => architectProcess
  | .engineer => engineerProcess
  | .cloudArchitect => cloudArchitectProcess
  | .serverlessArchitect => serverlessArchitectProcess
  | .propertyTarget => propertyTargetProcess
  | .inverseDesign => inverseDesignProcess
  | .experimentPlanning => experimentPlanningProcess

/-- The operation names each agent's `process` recognizes. -/
def knownOps : AgentKind → List String
  | .productManager => ["analyze_requirement", "create_user_stories",
      "create_competitive_analysis", "create_product_requirement_doc"]
  | .architect => ["create_architecture", "create_class_diagram",
      "create_sequence_diagram", "create_api_design"]
  | .engineer => ["implement_code", "review_code", "fix_bugs"]
  | .cloudArchitect => ["design_cloud_architecture", "evaluate_architecture",
      "create_infrastructure_diagram", "optimize_cost",
      "design_disaster_recovery", "analyze_cfn_failure"]
  | .serverlessArchitect => ["design_serverless_architecture",
      "design_event_driven_architecture", "design_api_gateway",
      "optimize_lambda_functions", "design_step_functions_workflow"]
  | .propertyTarget => ["set_target_properties", "analyze_tradeoffs",
      "validate_targets"]
  | .inverseDesign => ["design_materials", "rank_candidates",
      "evaluate_feasibility"]
  | .experimentPlanning => ["create_experiment_plan", "optimize_conditions",
      "estimate_resources"]

/-- A concrete agent world for concrete runs. -/
def sampleSt : AgentSt :=
  { fields := { agent_id := "agent-1", agent_type := "architect",
                state := "init", memory := varr [], created_at := "t0" },
    s3 := [], stateRecs := [], events := [], queue := [], uploads := [],
    uuids := ["11111111-1111-4111-8111-111111111111",
              "22222222-2222-4222-8222-222222222222",
              "33333333-3333-4333-8333-333333333333"],
    llmContent := "model reply",
    now := ⟨2023, 5, 15⟩, nowIso := "2023-05-15T10:30:45" }

/-- C4 counterexample: the Architect's `process` has no exception
handler (bizdev/architect/index.py lines 47-71), so an unrecognized
`process_type` raises the `ValueError` to `process`'s caller instead of
returning a `\x7bstatus: failed, …\x7d` value. -/
theorem C4_counterexample :
    architectProcess sampleSt [("process_type", vstr "bogus")] =
      (.error "Unknown process type: bogus", sampleSt) := rfl

/-- C4 (amended).  Dispatching any agent's `process` with a recognized
dictionary input whose `process_type` string is not one of that agent's
operation names leaves the world completely unchanged and: for the seven
agents whose `process` has an exception handler, returns
`\x7bstatus: "failed", error: "Unknown process type: …"\x7d`; for the
Architect, raises the `ValueError` to the caller. -/
theorem C4_unknown_process_routing (k : AgentKind) (st : AgentSt) (input : Input)
    (s : String) (hpt : getKey input "process_type" = some (vstr s))
    (hunk : s ∉ knownOps k) :
    processOf k st input =
      (if k = .architect then .error ("Unknown process type: " ++ s)
       else .ok (vobj [("status", vstr "failed"),
         ("error", vstr ("Unknown process type: " ++ s))]), st) := by
  cases k with
  | productManager =>
    have hin : inGet input "process_type" (vstr "analyze_requirement") = vstr s := by
      unfold inGet getKeyD; rw [hpt]; rfl
    simp only [knownOps, List.mem_cons, List.not_mem_nil, or_false, not_or] at hunk
    obtain ⟨n1, n2, n3, n4⟩ := hunk
    simp only [processOf, productManagerProcess, hin, if_neg n1, if_neg n2, if_neg n3,
      if_neg n4, pyCatch]
    rfl
  | architect =>
    have hin : inGet input "process_type" (vstr "create_architecture") = vstr s := by
      unfold inGet getKeyD; rw [hpt]; rfl
    simp only [knownOps, List.mem_cons, List.not_mem_nil, or_false, not_or] at hunk
    obtain ⟨n1, n2, n3, n4⟩ := hunk
    simp only [processOf, architectProcess, hin, if_neg n1, if_neg n2, if_neg n3,
      if_neg n4]
    rfl
  | engineer =>
    have hin : inGet input "process_type" (vstr "implement_code") = vstr s := by
      unfold inGet getKeyD; rw [hpt]; rfl
    simp only [knownOps, List.mem_cons, List.not_mem_nil, or_false, not_or] at hunk
    obtain ⟨n1, n2, n3⟩ := hunk
    simp only [processOf, engineerProcess, hin, if_neg n1, if_neg n2, if_neg n3, pyCatch]
    rfl
  | cloudArchitect =>
    have hin : inGet input "process_type" (vstr "design_cloud_architecture") = vstr s := by
      unfold inGet getKeyD; rw [hpt]; rfl
    simp only [knownOps, List.mem_cons, List.not_mem_nil, or_false, not_or] at hunk
    obtain ⟨n1, n2, n3, n4, n5, n6⟩ := hunk
    simp only [processOf, cloudArchitectProcess, hin, if_neg n1, if_neg n2, if_neg n3,
      if_neg n4, if_neg n5, if_neg n6, pyCatch]
    rfl
  | serverlessArchitect =>
    have hin : inGet input "process_type" (vstr "design_serverless_architecture") = vstr s := by
      unfold inGet getKeyD; rw [hpt]; rfl
    simp only [knownOps, List.mem_cons, List.not_mem_nil, or_false, not_or] at hunk
    obtain ⟨n1, n2, n3, n4, n5⟩ := hunk
    simp only [processOf, serverlessArchitectProcess, hin, if_neg n1, if_neg n2, if_neg n3,
      if_neg n4, if_neg n5, pyCatch]
    rfl
  | propertyTarget =>
    have hin : inGet input "process_type" (vstr "set_target_properties") = vstr s := by
      unfold inGet getKeyD; rw [hpt]; rfl
    simp only [knownOps, List.mem_cons, List.not_mem_nil, or_false, not_or] at hunk
    obtain ⟨n1, n2, n3⟩ := hunk
    simp only [processOf, propertyTargetProcess, hin, if_neg n1, if_neg n2, if_neg n3, pyCatch]
    rfl
  | inverseDesign =>
    have hin : inGet input "process_type" (vstr "design_materials") = vstr s := by
      unfold inGet getKeyD; rw [hpt]; rfl
    simp only [knownOps, List.mem_cons, List.not_mem_nil, or_false, not_or] at hunk
    obtain ⟨n1, n2, n3⟩ := hunk
    simp only [processOf, inverseDesignProcess, hin, if_neg n1, if_neg n2, if_neg n3, pyCatch]
    rfl
  | experimentPlanning =>
    have hin : inGet input "process_type" (vstr "create_experiment_plan") = vstr s := by
      unfold inGet getKeyD; rw [hpt]; rfl
    simp only [knownOps, List.mem_cons, List.not_mem_nil, or_false, not_or] at hunk
    obtain ⟨n1, n2, n3⟩ := hunk
    simp only [processOf, experimentPlanningProcess, hin, if_neg n1, if_neg n2, if_neg n3, pyCatch]
    rfl

/-- C4 witness: the Engineer's `process` on `process_type = "bogus"`
returns the failed dictionary and changes nothing. -/
theorem C4_unknown_process_routing_witness :
    (getKey [("process_type", vstr "bogus")] "process_type" = some (vstr "bogus") ∧
      "bogus" ∉ knownOps .engineer) ∧
    processOf .engineer sampleSt [("process_type", vstr "bogus")] =
      (if AgentKind.engineer = .architect then
         .error ("Unknown process type: " ++ "bogus")
       else .ok (vobj [("status", vstr "failed"),
         ("error", vstr ("Unknown process type: " ++ "bogus"))]), sampleSt) :=
  ⟨⟨rfl, by decide⟩,
    C4_unknown_process_routing .engineer sampleSt [("process_type", vstr "bogus")]
      "bogus" rfl (by decide)⟩

/-! ### The Materials frame condition -/

/-- The nine operations of the three Materials agents. -/
def isMaterialsOp : OpId → Bool
  | .set_target_properties | .analyze_tradeoffs | .validate_targets
  | .design_materials | .rank_candidates | .evaluate_feasibility
  | .create_experiment_plan | .optimize_conditions | .estimate_resources => true
  | _ => false

/-- The Materials operations whose success path publishes a domain
event (`TargetPropertiesSet`, `MaterialsDesigned`,
`ExperimentPlanCreated`). -/
def materialsEmits : OpId → Bool
  | .set_target_properties | .design_materials | .create_experiment_plan => true
  | _ => false

/-- C9 counterexample: a successful `design_materials` run publishes a
`MaterialsDesigned` event (inverse_design/index.py lines 156-163), so
`set_target_properties` is not the only Materials operation with a live
event emission. -/
theorem C9_counterexample :
    (∃ v, (runOp .design_materials sampleSt
        [("target_properties", vobj [("strength", vnum 5)])]).1 = .ok v ∧
      getValD v "status" (vstr "") = vstr "success") ∧
    List.map EventRec.detailType
        (runOp .design_materials sampleSt
          [("target_properties", vobj [("strength", vnum 5)])]).2.events =
      ["MaterialsDesigned"] :=
  ⟨⟨_, rfl, rfl⟩, rfl⟩

/-- C9 (amended).  Materials-domain frame condition: on every successful
operation of the three Materials agents the agent's fields (memory,
state label, identifiers) are unchanged, no state record is persisted,
no message is queued, and exactly one artifact is written; an event is
additionally published exactly for `set_target_properties`,
`design_materials` and `create_experiment_plan` (one each), and for no
other Materials operation. -/
theorem C9_materials_frame_condition (op : OpId) (st : AgentSt) (input : Input)
    (v : Val) (hmat : isMaterialsOp op = true)
    (hok : (runOp op st input).1 = .ok v)
    (hstat : getValD v "status" (vstr "") = vstr "success") :
    (runOp op st input).2.fields = st.fields ∧
    (runOp op st input).2.stateRecs = st.stateRecs ∧
    (runOp op st input).2.queue = st.queue ∧
    (∃ k, (runOp op st input).2.uploads = st.uploads ++ [k]) ∧
    (materialsEmits op = true →
      ∃ e, (runOp op st input).2.events = st.events ++ [e]) ∧
    (materialsEmits op = false → (runOp op st input).2.events = st.events) := by
  cases op with
  | set_target_properties =>
    by_cases hreq : (inGet input "requirements" (vstr "")).truthy
    · simp only [runOp, set_target_properties, hreq, Bool.not_true, if_false,
        agentUpload, emit_event, freshUuid]
      exact ⟨rfl, rfl, rfl, ⟨_, rfl⟩, fun _ => ⟨_, rfl⟩, fun h => Bool.noConfusion h⟩
    · rw [Bool.not_eq_true] at hreq
      simp only [runOp, set_target_properties, hreq, Bool.not_false, if_true] at hok
      exact Except.noConfusion hok
  | analyze_tradeoffs =>
    by_cases hreq : (inGet input "target_properties" (vobj [])).truthy
    · simp only [runOp, analyze_tradeoffs, hreq, Bool.not_true, if_false,
        agentUpload, freshUuid]
      exact ⟨rfl, rfl, rfl, ⟨_, rfl⟩, fun h => Bool.noConfusion h, fun _ => rfl⟩
    · rw [Bool.not_eq_true] at hreq
      simp only [runOp, analyze_tradeoffs, hreq, Bool.not_false, if_true] at hok
      exact Except.noConfusion hok
  | validate_targets =>
    by_cases hreq : (inGet input "target_properties" (vobj [])).truthy
    · simp only [runOp, validate_targets, hreq, Bool.not_true, if_false,
        agentUpload, freshUuid]
      exact ⟨rfl, rfl, rfl, ⟨_, rfl⟩, fun h => Bool.noConfusion h, fun _ => rfl⟩
    · rw [Bool.not_eq_true] at hreq
      simp only [runOp, validate_targets, hreq, Bool.not_false, if_true] at hok
      exact Except.noConfusion hok
  | design_materials =>
    by_cases hreq : (inGet input "target_properties" (vobj [])).truthy
    · simp only [runOp, design_materials, hreq, Bool.not_true, if_false,
        agentUpload, emit_event, freshUuid]
      exact ⟨rfl, rfl, rfl, ⟨_, rfl⟩, fun _ => ⟨_, rfl⟩, fun h => Bool.noConfusion h⟩
    · rw [Bool.not_eq_true] at hreq
      simp only [runOp, design_materials, hreq, Bool.not_false, if_true] at hok
      exact Except.noConfusion hok
  | rank_candidates =>
    by_cases hreq : (inGet input "candidate_materials" (varr [])).truthy
    · rcases hm : parseRankedMaterials (inGet input "candidate_materials" (varr []))
        with _ | rm
      · simp only [runOp, rank_candidates, hreq, Bool.not_true, if_false, hm,
          Bool.false_eq_true, Except.ok.injEq] at hok
        rw [← hok] at hstat
        exact absurd hstat (by simp [getValD, getKeyD, getKey])
      · simp only [runOp, rank_candidates, hreq, Bool.not_true, if_false, hm,
          agentUpload, freshUuid]
        exact ⟨rfl, rfl, rfl, ⟨_, rfl⟩, fun h => Bool.noConfusion h, fun _ => rfl⟩
    · rw [Bool.not_eq_true] at hreq
      simp only [runOp, rank_candidates, hreq, Bool.not_false, if_true] at hok
      exact Except.noConfusion hok
  | evaluate_feasibility =>
    by_cases hreq : (inGet input "material" (vobj [])).truthy
    · simp only [runOp, evaluate_feasibility, hreq, Bool.not_true, if_false,
        agentUpload, freshUuid]
      exact ⟨rfl, rfl, rfl, ⟨_, rfl⟩, fun h => Bool.noConfusion h, fun _ => rfl⟩
    · rw [Bool.not_eq_true] at hreq
      simp only [runOp, evaluate_feasibility, hreq, Bool.not_false, if_true] at hok
      exact Except.noConfusion hok
  | create_experiment_plan =>
    by_cases h1 : (inGet input "materials" (varr [])).truthy
    · by_cases h2 : (inGet input "target_properties" (vobj [])).truthy
      · simp only [runOp, create_experiment_plan, h1, h2, Bool.not_true, if_false,
          agentUpload, emit_event, freshUuid]
        exact ⟨rfl, rfl, rfl, ⟨_, rfl⟩, fun _ => ⟨_, rfl⟩, fun h => Bool.noConfusion h⟩
      · rw [Bool.not_eq_true] at h2
        simp only [runOp, create_experiment_plan, h1, h2, Bool.not_true, Bool.not_false,
          if_false, if_true] at hok
        exact Except.noConfusion hok
    · rw [Bool.not_eq_true] at h1
      simp only [runOp, create_experiment_plan, h1, Bool.not_false, if_true] at hok
      exact Except.noConfusion hok
  | optimize_conditions =>
    by_cases hreq : (inGet input "experiment" (vobj [])).truthy
    · simp only [runOp, optimize_conditions, hreq, Bool.not_true, if_false,
        agentUpload, freshUuid]
      exact ⟨rfl, rfl, rfl, ⟨_, rfl⟩, fun h => Bool.noConfusion h, fun _ => rfl⟩
    · rw [Bool.not_eq_true] at hreq
      simp only [runOp, optimize_conditions, hreq, Bool.not_false, if_true] at hok
      exact Except.noConfusion hok
  | estimate_resources =>
    by_cases hreq : (inGet input "experiment_plan" (vobj [])).truthy
    · simp only [runOp, estimate_resources, hreq, Bool.not_true, if_false,
        agentUpload, freshUuid]
      exact ⟨rfl, rfl, rfl, ⟨_, rfl⟩, fun h => Bool.noConfusion h, fun _ => rfl⟩
    · rw [Bool.not_eq_true] at hreq
      simp only [runOp, estimate_resources, hreq, Bool.not_false, if_true] at hok
      exact Except.noConfusion hok
  | analyze_requirement => exact Bool.noConfusion hmat
  | create_user_stories => exact Bool.noConfusion hmat
  | create_competitive_analysis => exact Bool.noConfusion hmat
  | create_product_requirement_doc => exact Bool.noConfusion hmat
  | create_architecture => exact Bool.noConfusion hmat
  | create_class_diagram => exact Bool.noConfusion hmat
  | create_sequence_diagram => exact Bool.noConfusion hmat
  | create_api_design => exact Bool.noConfusion hmat
  | implement_code => exact Bool.noConfusion hmat
  | review_code => exact Bool.noConfusion hmat
  | fix_bugs => exact Bool.noConfusion hmat
  | design_cloud_architecture => exact Bool.noConfusion hmat
  | evaluate_architecture => exact Bool.noConfusion hmat
  | create_infrastructure_diagram => exact Bool.noConfusion hmat
  | optimize_cost => exact Bool.noConfusion hmat
  | design_disaster_recovery => exact Bool.noConfusion hmat
  | analyze_cfn_failure => exact Bool.noConfusion hmat
  | design_serverless_architecture => exact Bool.noConfusion hmat
  | design_event_driven_architecture => exact Bool.noConfusion hmat
  | design_api_gateway => exact Bool.noConfusion hmat
  | optimize_lambda_functions => exact Bool.noConfusion hmat
  | design_step_functions_workflow => exact Bool.noConfusion hmat

/-- C9 witness: a successful concrete `validate_targets` run writes one
artifact and nothing else. -/
theorem C9_materials_frame_condition_witness :
    (isMaterialsOp .validate_targets = true ∧
      ∃ v, (runOp .validate_targets sampleSt
          [("target_properties", vobj [("conductivity", vnum 10)])]).1 = .ok v ∧
        getValD v "status" (vstr "") = vstr "success") ∧
    ((runOp .validate_targets sampleSt
        [("target_properties", vobj [("conductivity", vnum 10)])]).2.fields =
      sampleSt.fields ∧
    (runOp .validate_targets sampleSt
        [("target_properties", vobj [("conductivity", vnum 10)])]).2.stateRecs =
      sampleSt.stateRecs ∧
    (runOp .validate_targets sampleSt
        [("target_properties", vobj [("conductivity", vnum 10)])]).2.queue =
      sampleSt.queue ∧
    (∃ k, (runOp .validate_targets sampleSt
        [("target_properties", vobj [("conductivity", vnum 10)])]).2.uploads =
      sampleSt.uploads ++ [k]) ∧
    (materialsEmits .validate_targets = true →
      ∃ e, (runOp .validate_targets sampleSt
          [("target_properties", vobj [("conductivity", vnum 10)])]).2.events =
        sampleSt.events ++ [e]) ∧
    (materialsEmits .validate_targets = false →
      (runOp .validate_targets sampleSt
          [("target_properties", vobj [("conductivity", vnum 10)])]).2.events =
        sampleSt.events)) :=
  ⟨⟨rfl, _, rfl, rfl⟩,
    C9_materials_frame_condition .validate_targets sampleSt
      [("target_properties", vobj [("conductivity", vnum 10)])] _ rfl rfl rfl⟩

/-- C2.  Evaluation of the outbound-message construction at the failing
input `[user, user, assistant, assistant]`: the scan range is fixed at the
pre-insertion length (CPython `range(1, len(...))` is computed once), so
after the bridge inserted before the repeated user message shifts the
tail, the final adjacent `assistant`/`assistant` pair at indices 3 and 4
is never examined and survives un-bridged — the outbound list ends with
two consecutive assistant-role messages, violating the strict-alternation
contract (the only tolerated adjacency is a trailing repeated *user*). -/
theorem C2_alternation_divergence :
    outboundMessages [{ role := "user", content := "u1" }, { role := "user", content := "u2" },
        { role := "assistant", content := "a1" }, { role := "assistant", content := "a2" }] =
      .ok [{ role := "user", content := "u1" },
        { role := "assistant", content := "I understand. Please continue." },
        { role := "user", content := "u2" },
        { role := "assistant", content := "a1" },
        { role := "assistant", content := "a2" }] ∧
    (({ role := "assistant", content := "a1" } : Msg).role =
        ({ role := "assistant", content := "a2" } : Msg).role ∧
      ({ role := "assistant", content := "a2" } : Msg).role ≠ "user") := by
  exact ⟨by rfl, by rfl, by decide⟩

end MAS
